import Mathlib

/-!
Verification development for the `runware-go` client library
(final revision of the module, the one that tracks omitted boolean
flags and validates dimensions via `getDimensionValue`).

The Go code is shallowly embedded:
* dynamically typed Go values (`any`) become the inductive `GoVal`,
  which records the Go dynamic type of each value — Go interface
  equality (`value == ""`) holds only when dynamic types coincide,
  which the embedding mirrors in `isEmptyOrNil`;
* a caller-supplied option map (`map[string]any`) becomes
  `OptionMap := String → Option GoVal` (`none` models both a missing
  key and an explicit untyped `nil`, which Go treats identically here);
* a Go type-assertion panic becomes `Except.error` with a panic message;
* the random `uuid.New().String()` calls become a deterministic stream
  `genUUID : Nat → String` indexed by a draw counter that `Config`
  threads through (see `genUUID` below);
* the serialized wire object of one task is the association list of
  JSON keys to Go values that survives `skipEmptyOrNil`; `json.Marshal`
  emits exactly these keys (maps serialize with their key set), so
  "the wire object contains key k" is `List.lookup k ≠ none`.
-/

/-- Go dynamic values as they occur in this library: each constructor is
one Go dynamic type (`string`, the named types `TaskType`, `OutputType`,
`OutputFormat`, `Definition` (a `uint16`), `uint8`, `bool`, and plain
`int` which callers may wrongly supply). -/
inductive GoVal where
  | str : String → GoVal
  | taskTypeV : String → GoVal
  | outputTypeV : String → GoVal
  | outputFormatV : String → GoVal
  | definitionV : Nat → GoVal
  | uint8V : Nat → GoVal
  | boolV : Bool → GoVal
  | intV : Int → GoVal
deriving DecidableEq, Repr

/-- One caller-supplied option mapping (`map[string]any`); `none` is a
missing key (or an explicit `nil`, which the Go code treats the same). -/
def OptionMap : Type := String → Option GoVal

/-- `RunwareOptions` (final revision): the normalized task descriptor.
Go zero values are `""`, `0`, `false`; `Width`/`Height` are `Definition`
(`uint16`) values and `NumberOfResults` a `uint8` value. -/
structure RunwareOptions where
  taskType : String := ""
  taskUUID : String := ""
  prompt : String := ""
  model : String := ""
  uploadEndpoint : String := ""
  outputType : String := ""
  outputFormat : String := ""
  width : Nat := 0
  height : Nat := 0
  numberOfResults : Nat := 0
  checkNSFW : Bool := false
  includeCost : Bool := false
deriving DecidableEq, Repr

/-- `generateImagesV1Impl`: the client struct — credential, the most
recently configured batch, and the omitted-boolean-flags side list. -/
structure generateImagesV1Impl where
  apiKey : String
  options : List RunwareOptions
  omittedFields : List String
deriving DecidableEq, Repr

/-- `NewGenerateImagesV1`: fresh client with an empty omission list. -/
def NewGenerateImagesV1 (apiKey : String) : generateImagesV1Impl :=
  { apiKey := apiKey, options := [], omittedFields := [] }

/-- The supported resolution presets of the `Definition` enumeration
(the distinct pixel values of the SD/HD named constants). -/
def supportedDefinitions : List Nat :=
  [512, 640, 768, 960, 1024, 1152, 1536, 1728]

/-- Go type assertion `v.(string)`; wrong dynamic type panics. -/
def asString : GoVal → Except String String
  | .str s => .ok s
  | _ => .error "panic: interface conversion to string"

/-- Go type assertion `v.(TaskType)`. -/
def asTaskType : GoVal → Except String String
  | .taskTypeV s => .ok s
  | _ => .error "panic: interface conversion to TaskType"

/-- Go type assertion `v.(OutputType)`. -/
def asOutputType : GoVal → Except String String
  | .outputTypeV s => .ok s
  | _ => .error "panic: interface conversion to OutputType"

/-- Go type assertion `v.(OutputFormat)`. -/
def asOutputFormat : GoVal → Except String String
  | .outputFormatV s => .ok s
  | _ => .error "panic: interface conversion to OutputFormat"

/-- Go type assertion `v.(Definition)`; the carried value is reduced to
its `uint16` range. -/
def asDefinition : GoVal → Except String Nat
  | .definitionV n => .ok (n % 65536)
  | _ => .error "panic: interface conversion to Definition"

/-- Go type assertion `v.(uint8)`. -/
def asUint8 : GoVal → Except String Nat
  | .uint8V n => .ok (n % 256)
  | _ => .error "panic: interface conversion to uint8"

/-- Go type assertion `v.(bool)`. -/
def asBool : GoVal → Except String Bool
  | .boolV b => .ok b
  | _ => .error "panic: interface conversion to bool"

/-- `if data[k] != nil then assert else keep the zero value`: the guard
pattern used for every field of `Config`. -/
def getField {α : Type} (data : OptionMap) (k : String)
    (conv : GoVal → Except String α) (dflt : α) : Except String α :=
  match data k with
  | none => .ok dflt
  | some v => conv v

/-- The boolean-flag keys this task's mapping leaves unsupplied; `Config`
appends them to `g.omittedFields` (checkNSFW first, then includeCost,
exactly as the two `else` branches fire in source order). -/
def taskOmissions (data : OptionMap) : List String :=
  (if (data "checkNSFW").isNone then ["checkNSFW"] else []) ++
  (if (data "includeCost").isNone then ["includeCost"] else [])

/-- The flags appended over a whole `Config` call, task by task in input
order. -/
def batchOmissions (opts : List OptionMap) : List String :=
  (opts.map taskOmissions).flatten

/-- The `taskUUID` branch of `Config`: a supplied value is asserted to
`string` and used verbatim (the counter does not advance); an absent
key draws `uuid.New().String()` — here the stream `gen` at the current
counter, which then advances. -/
def uuidField (gen : Nat → String) (ctr : Nat) :
    Option GoVal → Except String (String × Nat)
  | some v => (asString v).map (fun s => (s, ctr))
  | none => .ok (gen ctr, ctr + 1)

/-- The body of `Config`'s loop for one mapping: every recognized key
that is present is type-asserted into the descriptor; an absent
`taskUUID` draws a fresh UUID via `uuidField`. -/
def configOne (gen : Nat → String) (ctr : Nat) (data : OptionMap) :
    Except String (RunwareOptions × Nat) := do
  let tt ← getField data "taskType" asTaskType ""
  let tu ← uuidField gen ctr (data "taskUUID")
  let pr ← getField data "prompt" asString ""
  let w ← getField data "width" asDefinition 0
  let h ← getField data "height" asDefinition 0
  let md ← getField data "model" asString ""
  let nr ← getField data "results" asUint8 0
  let ue ← getField data "uploadEndpoint" asString ""
  let cn ← getField data "checkNSFW" asBool false
  let ic ← getField data "includeCost" asBool false
  let ot ← getField data "outputType" asOutputType ""
  let ofm ← getField data "outputFormat" asOutputFormat ""
  .ok ({ taskType := tt, taskUUID := tu.1, prompt := pr, model := md,
         uploadEndpoint := ue, outputType := ot, outputFormat := ofm,
         width := w, height := h, numberOfResults := nr,
         checkNSFW := cn, includeCost := ic }, tu.2)

/-- `Config`'s loop over the whole input sequence, threading the UUID
draw counter; the descriptor list is built fresh. -/
def configList (gen : Nat → String) :
    Nat → List OptionMap → Except String (List RunwareOptions × Nat)
  | ctr, [] => .ok ([], ctr)
  | ctr, d :: rest => do
    let (o, ctr1) ← configOne gen ctr d
    let (os, ctr2) ← configList gen ctr1 rest
    .ok (o :: os, ctr2)

/-- `Config`: `g.options` is rebuilt from scratch
(`make([]RunwareOptions, len(options))`), while `g.omittedFields` is
only appended to — it keeps whatever previous `Config` calls put there. -/
def Config (gen : Nat → String) (g : generateImagesV1Impl)
    (opts : List OptionMap) (ctr : Nat) :
    Except String (generateImagesV1Impl × Nat) :=
  match configList gen ctr opts with
  | .error e => .error e
  | .ok (os, ctr') =>
      .ok ({ apiKey := g.apiKey, options := os,
             omittedFields := g.omittedFields ++ batchOmissions opts }, ctr')

/-- Lowercase hex digit for `n < 16`. -/
def hexChar (n : Nat) : Char :=
  "0123456789abcdef".data.getD n '0'

/-- Exactly `k` lowercase hex digits, big-endian, for `n` modulo `16 ^ k`. -/
def hexDigits : Nat → Nat → List Char
  | 0, _ => []
  | k + 1, n => hexDigits k (n / 16) ++ [hexChar (n % 16)]

/-- Modelled from the spec: `uuid.New().String()` from
`github.com/google/uuid` is external library code (not under `src/`);
the spec promises "a fresh random UUID-v4 ... a syntactically valid
random UUID-v4 is generated, and two `configure` calls never produce
the same generated ID (within practical collision bounds)". Successive
random draws are modelled as a deterministic stream indexed by the draw
counter: draw `n` fills the final 12 hex digits with `n` and fixes the
version nibble to `4` and the variant nibble to `8`, so each draw is a
syntactically valid UUID-v4 and draws with distinct counters below
`16 ^ 12` are distinct. -/
def genUUID (n : Nat) : String :=
  String.mk ("00000000-0000-4000-8000-".data ++ hexDigits 12 n)

/-- Is `c` a lowercase hex digit? -/
def isHexDigitChar (c : Char) : Bool :=
  "0123456789abcdef".data.contains c

/-- Match a character list against a UUID template: `x` stands for a hex
digit, `N` for a variant nibble (`8`, `9`, `a` or `b`), anything else
for itself. -/
def matchesFormat : List Char → List Char → Bool
  | [], [] => true
  | f :: fs, c :: cs =>
      (if f = 'x' then isHexDigitChar c
       else if f = 'N' then (c = '8' || c = '9' || c = 'a' || c = 'b')
       else c = f) && matchesFormat fs cs
  | _, _ => false

/-- The UUID-v4 template: 8-4-4-4-12 hex digits with dashes, version
nibble `4`, variant nibble in `8`..`b`. -/
def uuidTemplate : List Char :=
  "xxxxxxxx-xxxx-4xxx-Nxxx-xxxxxxxxxxxx".data

/-- Syntactic UUID-v4 validity of a string. -/
def isUUIDv4 (s : String) : Bool :=
  matchesFormat uuidTemplate s.data

/-- Position of a character in the hex alphabet (decoder for `hexChar`). -/
def hexCharVal (c : Char) : Nat :=
  "0123456789abcdef".data.indexOf c

/-- Big-endian hex decoding of a character list. -/
def decodeHex (l : List Char) : Nat :=
  l.foldl (fun a c => a * 16 + hexCharVal c) 0

/-- `uint16 → int16` conversion (two's complement), as in
`int16(v)` of `getDimensionValue`. -/
def toInt16 (n : Nat) : Int :=
  if n % 65536 < 32768 then (n % 65536 : Int) else (n % 65536 : Int) - 65536

/-- `int16 → uint16` conversion, as in `Definition(width)`. -/
def toUint16 (i : Int) : Nat :=
  (i % 65536).toNat

/-- `getDimensionValue`: a type switch on the dynamic type of `dim` —
only the `Definition` arm succeeds; the pixel value itself is never
checked against the preset enumeration. -/
def getDimensionValue (dim : GoVal) : Except String Int :=
  match dim with
  | .definitionV n => .ok (toInt16 n)
  | _ => .error "invalid dimension type, must be Definition or Definition"

/-- Go interface comparison `value == "" || value == nil` inside
`skipEmptyOrNil`: an interface equals the untyped constant `""` only
when its dynamic type is `string` (so `TaskType("")`, `OutputType("")`
and `OutputFormat("")` do NOT compare equal to `""`), and none of the
twelve map values is ever `nil`. -/
def isEmptyOrNil : GoVal → Bool
  | .str s => s = ""
  | _ => false

/-- `skipEmptyOrNil`: delete every key whose value is `== ""` / `nil` or
whose key is in `omittedFields`; keep the rest. -/
def skipEmptyOrNil (option : List (String × GoVal))
    (omittedFields : List String) : List (String × GoVal) :=
  option.filter (fun kv => !(isEmptyOrNil kv.2 || omittedFields.contains kv.1))

/-- The twelve-entry map literal built in `buildClient` for one request,
with the wire field names (`prompt ↦ positivePrompt`,
`NumberOfResults ↦ numberOfResults`) and each value carrying its Go
dynamic type.  `json.Marshal` emits map keys sorted, so the entries are
listed alphabetically. -/
def taskEntries (r : RunwareOptions) : List (String × GoVal) :=
  [("checkNSFW", .boolV r.checkNSFW),
   ("height", .definitionV r.height),
   ("includeCost", .boolV r.includeCost),
   ("model", .str r.model),
   ("numberOfResults", .uint8V r.numberOfResults),
   ("outputFormat", .outputFormatV r.outputFormat),
   ("outputType", .outputTypeV r.outputType),
   ("positivePrompt", .str r.prompt),
   ("taskType", .taskTypeV r.taskType),
   ("taskUUID", .str r.taskUUID),
   ("uploadEndpoint", .str r.uploadEndpoint),
   ("width", .definitionV r.width)]

/-- The `Width`/`Height` round trip of `buildClient`:
`width, err := getDimensionValue(request.Width); request.Width = Definition(width)`
(and the same for `Height`). -/
def dimFix (r : RunwareOptions) : RunwareOptions :=
  { r with width := toUint16 (toInt16 r.width),
           height := toUint16 (toInt16 r.height) }

/-- The payload loop of `buildClient`: per request, resolve the two
dimensions (failing fast on the first error, before anything is sent),
then append the skipped map. -/
def buildPayloadList (om : List String) :
    List RunwareOptions → Except String (List (List (String × GoVal)))
  | [] => .ok []
  | r :: rs => do
    let w ← getDimensionValue (.definitionV r.width)
    let r1 := { r with width := toUint16 w }
    let h ← getDimensionValue (.definitionV r1.height)
    let r2 := { r1 with height := toUint16 h }
    let rest ← buildPayloadList om rs
    .ok (skipEmptyOrNil (taskEntries r2) om :: rest)

/-- `buildClient`, restricted to what it contributes to the wire
exchange: the JSON array of per-task objects that becomes the POST body
(HTTP client construction and headers are transport plumbing). -/
def buildClient (g : generateImagesV1Impl) :
    Except String (List (List (String × GoVal))) :=
  buildPayloadList g.omittedFields g.options

/-- `RunwareSuccessResponseBody` (the `float64` cost and the `int` seed
carry no claim-relevant structure and are embedded as integers). -/
structure RunwareSuccessResponseBody where
  taskType : String := ""
  taskUUID : String := ""
  imageUUID : String := ""
  imageUrl : String := ""
  imageBase64Data : String := ""
  imageDataURI : String := ""
  seed : Int := 0
  cost : Int := 0
  nsfwContent : Bool := false
deriving DecidableEq, Repr

/-- `RunwareErrorResponseBody`: the provider's structured error record. -/
structure RunwareErrorResponseBody where
  code : String := ""
  message : String := ""
  parameter : String := ""
  type : String := ""
  taskType : String := ""
deriving DecidableEq, Repr

/-- `RunwareResponseBody`: the provider envelope with its two parallel
sequences. -/
structure RunwareResponseBody where
  data : List RunwareSuccessResponseBody := []
  errors : List RunwareErrorResponseBody := []
deriving DecidableEq, Repr

/-- An HTTP response as the normalizer sees it: the status code and the
result of `json.NewDecoder(resp.Body).Decode` on the body. -/
structure HttpResponse where
  statusCode : Nat
  body : Except String RunwareResponseBody

/-- The Go `error` values `sendRequest` can return, tagged by origin:
a payload-build failure, a transport failure (`client.Do` or body
decode), or the provider-error path (`fmt.Errorf("%s", MarshalIndent)`). -/
inductive RwError where
  | buildError : String → RwError
  | transportError : String → RwError
  | providerError : String → RwError
deriving DecidableEq, Repr

/-- Rendering of one success record inside `json.MarshalIndent`. -/
def renderSuccess (r : RunwareSuccessResponseBody) : String :=
  "\x7b \"taskType\": \"" ++ r.taskType ++ "\", \"taskUUID\": \"" ++
  r.taskUUID ++ "\", \"imageUUID\": \"" ++ r.imageUUID ++
  "\", \"imageUrl\": \"" ++ r.imageUrl ++ "\" \x7d"

/-- Rendering of one provider error record inside `json.MarshalIndent`:
all five structured fields appear. -/
def renderError (e : RunwareErrorResponseBody) : String :=
  "\x7b \"code\": \"" ++ e.code ++ "\", \"message\": \"" ++ e.message ++
  "\", \"parameter\": \"" ++ e.parameter ++ "\", \"type\": \"" ++
  e.type ++ "\", \"taskType\": \"" ++ e.taskType ++ "\" \x7d"

/-- Comma-joined list of rendered records. -/
def joinStrs : List String → String
  | [] => ""
  | [a] => a
  | a :: b :: rest => a ++ "," ++ joinStrs (b :: rest)

/-- `json.MarshalIndent(response, "", "  ")`, modelled: the whole
envelope — both sequences — serialized to a readable JSON text (the
exact whitespace of the Go output is immaterial; what matters is that
every record of the envelope is rendered inside it and that the status
code is not part of it).  `MarshalIndent` cannot fail on this type, so
the model is total. -/
def renderResponse (r : RunwareResponseBody) : String :=
  "\x7b \"Data\": [" ++ joinStrs (r.data.map renderSuccess) ++
  "], \"Errors\": [" ++ joinStrs (r.errors.map renderError) ++ "] \x7d"

/-- The tail of `sendRequest` after `client.Do` succeeded: decode the
body first; only then inspect the status code, and on `>= 400` fail
with the re-serialized envelope. -/
def handleResponse (resp : HttpResponse) :
    Except RwError (List RunwareSuccessResponseBody) :=
  match resp.body with
  | .error e => .error (.transportError e)
  | .ok response =>
      if 400 ≤ resp.statusCode then
        .error (.providerError (renderResponse response))
      else .ok response.data

/-- `sendRequest`: build the payload (failing before any exchange), then
perform the single exchange (`doResult` is the outcome of `client.Do`,
the external network capability), then normalize the response. -/
def sendRequest (g : generateImagesV1Impl)
    (doResult : Except String HttpResponse) :
    Except RwError (List RunwareSuccessResponseBody) :=
  match buildClient g with
  | .error e => .error (.buildError e)
  | .ok _ =>
      match doResult with
      | .error e => .error (.transportError e)
      | .ok resp => handleResponse resp

/-- The `else` branch counter bookkeeping: how many mappings of the
batch draw a generated UUID. -/
def countAbsent : List OptionMap → Nat
  | [] => 0
  | d :: rest => (if (d "taskUUID").isNone then 1 else 0) + countAbsent rest

/-- Every recognized key that is present holds a value of exactly the
declared Go dynamic type — what a non-panicking `Config` run requires. -/
def WellTypedMap (d : OptionMap) : Prop :=
  (∀ v, d "taskType" = some v → ∃ s, v = GoVal.taskTypeV s) ∧
  (∀ v, d "taskUUID" = some v → ∃ s, v = GoVal.str s) ∧
  (∀ v, d "prompt" = some v → ∃ s, v = GoVal.str s) ∧
  (∀ v, d "width" = some v → ∃ n, v = GoVal.definitionV n) ∧
  (∀ v, d "height" = some v → ∃ n, v = GoVal.definitionV n) ∧
  (∀ v, d "model" = some v → ∃ s, v = GoVal.str s) ∧
  (∀ v, d "results" = some v → ∃ n, v = GoVal.uint8V n) ∧
  (∀ v, d "uploadEndpoint" = some v → ∃ s, v = GoVal.str s) ∧
  (∀ v, d "checkNSFW" = some v → ∃ b, v = GoVal.boolV b) ∧
  (∀ v, d "includeCost" = some v → ∃ b, v = GoVal.boolV b) ∧
  (∀ v, d "outputType" = some v → ∃ s, v = GoVal.outputTypeV s) ∧
  (∀ v, d "outputFormat" = some v → ∃ s, v = GoVal.outputFormatV s)

instance {α β : Type} [DecidableEq α] [DecidableEq β] :
    DecidableEq (Except α β) := fun x y =>
  match x, y with
  | .ok a, .ok b =>
      if h : a = b then .isTrue (by rw [h]) else .isFalse (by simp [h])
  | .error a, .error b =>
      if h : a = b then .isTrue (by rw [h]) else .isFalse (by simp [h])
  | .ok _, .error _ => .isFalse (by simp)
  | .error _, .ok _ => .isFalse (by simp)

theorem exceptBindOk {α β γ : Type} {x : Except γ α} {f : α → Except γ β}
    {b : β} (h : x >>= f = .ok b) : ∃ a, x = .ok a ∧ f a = .ok b := by
  cases x with
  | ok a => exact ⟨a, rfl, h⟩
  | error e => simp [Bind.bind, Except.bind] at h

theorem asString_ok {v : GoVal} {r : String} (h : asString v = .ok r) :
    v = GoVal.str r := by
  cases v <;> simp_all [asString]

theorem asTaskType_ok {v : GoVal} {r : String} (h : asTaskType v = .ok r) :
    v = GoVal.taskTypeV r := by
  cases v <;> simp_all [asTaskType]

theorem asOutputType_ok {v : GoVal} {r : String} (h : asOutputType v = .ok r) :
    v = GoVal.outputTypeV r := by
  cases v <;> simp_all [asOutputType]

theorem asOutputFormat_ok {v : GoVal} {r : String}
    (h : asOutputFormat v = .ok r) : v = GoVal.outputFormatV r := by
  cases v <;> simp_all [asOutputFormat]

theorem asDefinition_ok {v : GoVal} {r : Nat} (h : asDefinition v = .ok r) :
    ∃ n, v = GoVal.definitionV n ∧ r = n % 65536 := by
  cases v <;> simp_all [asDefinition]

theorem asUint8_ok {v : GoVal} {r : Nat} (h : asUint8 v = .ok r) :
    ∃ n, v = GoVal.uint8V n ∧ r = n % 256 := by
  cases v <;> simp_all [asUint8]

theorem asBool_ok {v : GoVal} {r : Bool} (h : asBool v = .ok r) :
    v = GoVal.boolV r := by
  cases v <;> simp_all [asBool]

theorem getField_none {α : Type} {data : OptionMap} {k : String}
    {conv : GoVal → Except String α} {dflt r : α} (hn : data k = none)
    (h : getField data k conv dflt = .ok r) : r = dflt := by
  rw [getField, hn] at h
  simp at h
  exact h.symm

theorem getField_some {α : Type} {data : OptionMap} {k : String}
    {conv : GoVal → Except String α} {dflt r : α} {v : GoVal}
    (hv : data k = some v) (h : getField data k conv dflt = .ok r) :
    conv v = .ok r := by
  rw [getField, hv] at h
  exact h

/-- Full characterization of one successful `Config` loop iteration:
each recognized key, when present, must carry its declared dynamic type
and lands in the corresponding descriptor field; when absent, the field
keeps its Go zero value — except `taskUUID`, whose absence draws the
next generated UUID and advances the draw counter. -/
theorem configOne_spec {gen : Nat → String} {ctr : Nat} {data : OptionMap}
    {o : RunwareOptions} {ctr2 : Nat}
    (h : configOne gen ctr data = .ok (o, ctr2)) :
    (data "taskType" = none → o.taskType = "") ∧
    (∀ v, data "taskType" = some v → ∃ s, v = GoVal.taskTypeV s ∧ o.taskType = s) ∧
    (data "taskUUID" = none → o.taskUUID = gen ctr ∧ ctr2 = ctr + 1) ∧
    (∀ v, data "taskUUID" = some v → ∃ s, v = GoVal.str s ∧ o.taskUUID = s ∧ ctr2 = ctr) ∧
    (data "prompt" = none → o.prompt = "") ∧
    (∀ v, data "prompt" = some v → ∃ s, v = GoVal.str s ∧ o.prompt = s) ∧
    (data "width" = none → o.width = 0) ∧
    (∀ v, data "width" = some v → ∃ n, v = GoVal.definitionV n ∧ o.width = n % 65536) ∧
    (data "height" = none → o.height = 0) ∧
    (∀ v, data "height" = some v → ∃ n, v = GoVal.definitionV n ∧ o.height = n % 65536) ∧
    (data "model" = none → o.model = "") ∧
    (∀ v, data "model" = some v → ∃ s, v = GoVal.str s ∧ o.model = s) ∧
    (data "results" = none → o.numberOfResults = 0) ∧
    (∀ v, data "results" = some v → ∃ n, v = GoVal.uint8V n ∧ o.numberOfResults = n % 256) ∧
    (data "uploadEndpoint" = none → o.uploadEndpoint = "") ∧
    (∀ v, data "uploadEndpoint" = some v → ∃ s, v = GoVal.str s ∧ o.uploadEndpoint = s) ∧
    (data "checkNSFW" = none → o.checkNSFW = false) ∧
    (∀ v, data "checkNSFW" = some v → ∃ b, v = GoVal.boolV b ∧ o.checkNSFW = b) ∧
    (data "includeCost" = none → o.includeCost = false) ∧
    (∀ v, data "includeCost" = some v → ∃ b, v = GoVal.boolV b ∧ o.includeCost = b) ∧
    (data "outputType" = none → o.outputType = "") ∧
    (∀ v, data "outputType" = some v → ∃ s, v = GoVal.outputTypeV s ∧ o.outputType = s) ∧
    (data "outputFormat" = none → o.outputFormat = "") ∧
    (∀ v, data "outputFormat" = some v → ∃ s, v = GoVal.outputFormatV s ∧ o.outputFormat = s) := by
  unfold configOne at h
  obtain ⟨tt, h1, h⟩ := exceptBindOk h
  obtain ⟨tu, h2, h⟩ := exceptBindOk h
  obtain ⟨pr, h3, h⟩ := exceptBindOk h
  obtain ⟨w, h4, h⟩ := exceptBindOk h
  obtain ⟨ht, h5, h⟩ := exceptBindOk h
  obtain ⟨md, h6, h⟩ := exceptBindOk h
  obtain ⟨nr, h7, h⟩ := exceptBindOk h
  obtain ⟨ue, h8, h⟩ := exceptBindOk h
  obtain ⟨cn, h9, h⟩ := exceptBindOk h
  obtain ⟨ic, h10, h⟩ := exceptBindOk h
  obtain ⟨ot, h11, h⟩ := exceptBindOk h
  obtain ⟨ofm, h12, h⟩ := exceptBindOk h
  simp only [Except.ok.injEq, Prod.mk.injEq] at h
  obtain ⟨ho, hc⟩ := h
  subst ho
  subst hc
  refine ⟨?_, ?_, ?_, ?_, ?_, ?_, ?_, ?_, ?_, ?_, ?_, ?_, ?_, ?_, ?_, ?_,
          ?_, ?_, ?_, ?_, ?_, ?_, ?_, ?_⟩
  · intro hn; simpa using getField_none hn h1
  · intro v hv
    exact ⟨tt, asTaskType_ok (getField_some hv h1), rfl⟩
  · intro hn
    rw [hn] at h2
    simp only [uuidField, Except.ok.injEq] at h2
    subst h2
    exact ⟨rfl, rfl⟩
  · intro v hv
    rw [hv] at h2
    cases v
    case str s =>
      simp only [uuidField, asString, Except.map, Except.ok.injEq] at h2
      subst h2
      exact ⟨s, rfl, rfl, rfl⟩
    all_goals simp [uuidField, asString, Except.map] at h2
  · intro hn; simpa using getField_none hn h3
  · intro v hv
    exact ⟨pr, asString_ok (getField_some hv h3), rfl⟩
  · intro hn; simpa using getField_none hn h4
  · intro v hv
    obtain ⟨n, hvn, hw⟩ := asDefinition_ok (getField_some hv h4)
    exact ⟨n, hvn, hw⟩
  · intro hn; simpa using getField_none hn h5
  · intro v hv
    obtain ⟨n, hvn, hw⟩ := asDefinition_ok (getField_some hv h5)
    exact ⟨n, hvn, hw⟩
  · intro hn; simpa using getField_none hn h6
  · intro v hv
    exact ⟨md, asString_ok (getField_some hv h6), rfl⟩
  · intro hn; simpa using getField_none hn h7
  · intro v hv
    obtain ⟨n, hvn, hw⟩ := asUint8_ok (getField_some hv h7)
    exact ⟨n, hvn, hw⟩
  · intro hn; simpa using getField_none hn h8
  · intro v hv
    exact ⟨ue, asString_ok (getField_some hv h8), rfl⟩
  · intro hn; simpa using getField_none hn h9
  · intro v hv
    exact ⟨cn, asBool_ok (getField_some hv h9), rfl⟩
  · intro hn; simpa using getField_none hn h10
  · intro v hv
    exact ⟨ic, asBool_ok (getField_some hv h10), rfl⟩
  · intro hn; simpa using getField_none hn h11
  · intro v hv
    exact ⟨ot, asOutputType_ok (getField_some hv h11), rfl⟩
  · intro hn; simpa using getField_none hn h12
  · intro v hv
    exact ⟨ofm, asOutputFormat_ok (getField_some hv h12), rfl⟩

/-- Counter bookkeeping and per-index decomposition of the `Config`
loop: descriptor `i` is produced by `configOne` run at the counter the
first `i` mappings left behind. -/
theorem configList_spec {gen : Nat → String} :
    ∀ {ctr : Nat} {opts : List OptionMap} {os : List RunwareOptions}
      {ctr' : Nat}, configList gen ctr opts = .ok (os, ctr') →
    os.length = opts.length ∧ ctr' = ctr + countAbsent opts ∧
    ∀ i (h : i < opts.length) (h2 : i < os.length),
      configOne gen (ctr + countAbsent (opts.take i)) (opts.get ⟨i, h⟩) =
        .ok (os.get ⟨i, h2⟩, ctr + countAbsent (opts.take (i + 1))) := by
  intro ctr opts
  induction opts generalizing ctr with
  | nil =>
    intro os ctr' h
    simp only [configList, Except.ok.injEq, Prod.mk.injEq] at h
    obtain ⟨rfl, rfl⟩ := h
    exact ⟨rfl, by simp [countAbsent], fun i h _ => absurd h (by simp)⟩
  | cons d rest ih =>
    intro os ctr' h
    simp only [configList] at h
    obtain ⟨a, h1, h⟩ := exceptBindOk h
    obtain ⟨o, ctr1⟩ := a
    obtain ⟨b, h2, h⟩ := exceptBindOk h
    obtain ⟨os', ctr2⟩ := b
    simp only [Except.ok.injEq, Prod.mk.injEq] at h
    obtain ⟨rfl, rfl⟩ := h
    obtain ⟨hlen, hctr, hidx⟩ := ih h2
    have hc1 : ctr1 = ctr + (if (d "taskUUID").isNone then 1 else 0) := by
      cases hd : d "taskUUID" with
      | none =>
        obtain ⟨_, hcc⟩ := (configOne_spec h1).2.2.1 hd
        simp [hd, hcc]
      | some v =>
        obtain ⟨s, _, _, hcc⟩ := (configOne_spec h1).2.2.2.1 v hd
        simp [hd, hcc]
    refine ⟨by simp [hlen], ?_, ?_⟩
    · rw [hctr, hc1, countAbsent]
      omega
    · intro i hi h2i
      cases i with
      | zero =>
        simpa [countAbsent, List.take, hc1] using h1
      | succ j =>
        have hj : j < rest.length := by simpa using hi
        have hj2 : j < os'.length := by simpa using h2i
        have := hidx j hj hj2
        simp only [List.take, countAbsent, List.get_cons_succ]
        have harr : ctr + ((if (d "taskUUID").isNone then 1 else 0) +
            countAbsent (rest.take j)) =
            ctr1 + countAbsent (rest.take j) := by omega
        have harr2 : ctr + ((if (d "taskUUID").isNone then 1 else 0) +
            countAbsent (rest.take (j + 1))) =
            ctr1 + countAbsent (rest.take (j + 1)) := by omega
        rw [harr, harr2]
        exact this

/-- Inversion of a successful `Config` call: the descriptor list comes
from the loop alone, the omission list is the old one plus this batch's
omissions. -/
theorem Config_ok {gen : Nat → String} {g : generateImagesV1Impl}
    {opts : List OptionMap} {ctr : Nat} {g' : generateImagesV1Impl}
    {ctr' : Nat} (h : Config gen g opts ctr = .ok (g', ctr')) :
    configList gen ctr opts = .ok (g'.options, ctr') ∧
    g'.apiKey = g.apiKey ∧
    g'.omittedFields = g.omittedFields ++ batchOmissions opts := by
  unfold Config at h
  cases hc : configList gen ctr opts with
  | error e => rw [hc] at h; simp at h
  | ok a =>
    obtain ⟨os, c⟩ := a
    rw [hc] at h
    simp only [Except.ok.injEq, Prod.mk.injEq] at h
    obtain ⟨rfl, rfl⟩ := h
    exact ⟨rfl, rfl, rfl⟩

/-- Any flag one task of the batch omits lands in the batch omission
list. -/
theorem mem_batchOmissions {opts : List OptionMap} {j : Nat}
    (h : j < opts.length) {k : String}
    (hk : k ∈ taskOmissions (opts.get ⟨j, h⟩)) : k ∈ batchOmissions opts := by
  unfold batchOmissions
  rw [List.mem_flatten]
  exact ⟨taskOmissions (opts.get ⟨j, h⟩),
    List.mem_map.mpr ⟨opts.get ⟨j, h⟩, List.get_mem opts j h, rfl⟩, hk⟩

theorem checkNSFW_mem_taskOmissions {d : OptionMap}
    (hd : d "checkNSFW" = none) : "checkNSFW" ∈ taskOmissions d := by
  simp [taskOmissions, hd]

theorem includeCost_mem_taskOmissions {d : OptionMap}
    (hd : d "includeCost" = none) : "includeCost" ∈ taskOmissions d := by
  simp [taskOmissions, hd]

/-- The omission list only ever holds the two boolean-flag keys. -/
theorem batchOmissions_flags {opts : List OptionMap} {k : String}
    (h : k ∈ batchOmissions opts) : k = "checkNSFW" ∨ k = "includeCost" := by
  unfold batchOmissions at h
  rw [List.mem_flatten] at h
  obtain ⟨s, hs, hks⟩ := h
  obtain ⟨d, _, rfl⟩ := List.mem_map.mp hs
  unfold taskOmissions at hks
  rcases List.mem_append.mp hks with h1 | h1
  · left
    by_cases hd : (d "checkNSFW").isNone <;> simp [hd] at h1
    exact h1
  · right
    by_cases hd : (d "includeCost").isNone <;> simp [hd] at h1
    exact h1

/-- `buildClient`'s payload loop in closed form: the dimension type
switch always succeeds (the fields are statically `Definition`-typed),
so the loop never fails and returns one skipped wire object per
descriptor, in order. -/
theorem buildPayloadList_eq (om : List String) :
    ∀ rs : List RunwareOptions, buildPayloadList om rs =
      .ok (rs.map (fun r => skipEmptyOrNil (taskEntries (dimFix r)) om)) := by
  intro rs
  induction rs with
  | nil => rfl
  | cons r rs ih =>
    simp only [buildPayloadList, getDimensionValue, ih, List.map,
      Except.ok.injEq, Bind.bind, Except.bind, dimFix]

/-- `buildClient` in closed form. -/
theorem buildClient_eq (g : generateImagesV1Impl) :
    buildClient g = .ok (g.options.map
      (fun r => skipEmptyOrNil (taskEntries (dimFix r)) g.omittedFields)) :=
  buildPayloadList_eq g.omittedFields g.options

/-- Lookup steps over a non-matching head entry. -/
theorem lookup_cons_ne {k a : String} {v : GoVal} {l : List (String × GoVal)}
    (h : ¬ k = a) : List.lookup k ((a, v) :: l) = List.lookup k l := by
  simp [List.lookup, beq_false_of_ne h]

/-- Lookup finds a matching head entry. -/
theorem lookup_cons_self {k : String} {v : GoVal} {l : List (String × GoVal)} :
    List.lookup k ((k, v) :: l) = some v := by
  simp [List.lookup]

/-- A key on the omission list never survives `skipEmptyOrNil`. -/
theorem lookup_skip_of_mem {om : List String} {k : String}
    (hk : k ∈ om) : ∀ l : List (String × GoVal),
    (skipEmptyOrNil l om).lookup k = none := by
  intro l
  induction l with
  | nil => rfl
  | cons a l ih =>
    obtain ⟨a1, a2⟩ := a
    rw [skipEmptyOrNil, List.filter_cons]
    by_cases hka : k = a1
    · subst hka
      rw [if_neg (by simp [List.elem_iff, hk])]
      exact ih
    · by_cases hp : (!(isEmptyOrNil a2 || om.contains a1)) = true
      · rw [if_pos hp, lookup_cons_ne hka]
        exact ih
      · rw [if_neg hp]
        exact ih

/-- Looking a key up in a filtered list gives nothing when the original
list already gave nothing. -/
theorem lookup_filter_none {p : String × GoVal → Bool} {k : String} :
    ∀ {l : List (String × GoVal)}, l.lookup k = none →
    (l.filter p).lookup k = none := by
  intro l
  induction l with
  | nil => intro _; rfl
  | cons a l ih =>
    intro h
    obtain ⟨a1, a2⟩ := a
    by_cases hka : k = a1
    · subst hka
      rw [lookup_cons_self] at h
      cases h
    · rw [lookup_cons_ne hka] at h
      rw [List.filter_cons]
      by_cases hp : p (a1, a2) = true
      · rw [if_pos hp, lookup_cons_ne hka]
        exact ih h
      · rw [if_neg hp]
        exact ih h

/-- If a key never appears in an association list, its lookup is `none`. -/
theorem lookup_none_of_not_mem_keys {k : String} :
    ∀ {l : List (String × GoVal)}, k ∉ l.map Prod.fst →
    l.lookup k = none := by
  intro l
  induction l with
  | nil => intro _; rfl
  | cons a l ih =>
    intro h
    obtain ⟨a1, a2⟩ := a
    simp only [List.map, List.mem_cons] at h
    push_neg at h
    rw [lookup_cons_ne h.1]
    exact ih h.2

/-- Lookup through `skipEmptyOrNil` on an association list with distinct
keys: the entry survives exactly when it is neither Go-empty nor on the
omission list. -/
theorem lookup_skipEmptyOrNil_nodup {om : List String} {k : String} :
    ∀ {l : List (String × GoVal)}, (l.map Prod.fst).Nodup →
    (skipEmptyOrNil l om).lookup k =
      (match l.lookup k with
       | none => none
       | some v => if isEmptyOrNil v || om.contains k then none else some v) := by
  intro l
  induction l with
  | nil => intro _; rfl
  | cons a l ih =>
    intro hn
    obtain ⟨a1, a2⟩ := a
    simp only [List.map, List.nodup_cons] at hn
    obtain ⟨ha1, hnl⟩ := hn
    rw [skipEmptyOrNil, List.filter_cons]
    by_cases hka : k = a1
    · subst hka
      rw [lookup_cons_self]
      by_cases hor : (isEmptyOrNil a2 || om.contains k) = true
      · rw [if_neg (by rw [hor]; simp)]
        have hno : (List.filter
            (fun kv => !(isEmptyOrNil kv.2 || om.contains kv.1)) l).lookup k =
            none :=
          lookup_filter_none (lookup_none_of_not_mem_keys ha1)
        rw [hno]
        show none = if (isEmptyOrNil a2 || om.contains k) = true then none
          else some a2
        rw [hor]
        simp
      · have hf : (isEmptyOrNil a2 || om.contains k) = false := by
          simpa using hor
        rw [if_pos (by rw [hf]; simp), lookup_cons_self]
        show some a2 = if (isEmptyOrNil a2 || om.contains k) = true then none
          else some a2
        rw [hf]
        simp
    · rw [lookup_cons_ne hka]
      by_cases hp : (!(isEmptyOrNil a2 || om.contains a1)) = true
      · rw [if_pos hp, lookup_cons_ne hka]
        exact ih hnl
      · rw [if_neg hp]
        exact ih hnl

theorem hexDigits_length : ∀ (k n : Nat), (hexDigits k n).length = k := by
  intro k
  induction k with
  | zero => intro n; rfl
  | succ k ih =>
    intro n
    simp [hexDigits, ih]

theorem hexChar_hex : ∀ m, m < 16 → isHexDigitChar (hexChar m) = true := by
  decide

theorem hexDigits_hex : ∀ (k n : Nat), ∀ c ∈ hexDigits k n,
    isHexDigitChar c = true := by
  intro k
  induction k with
  | zero => intro n c hc; cases hc
  | succ k ih =>
    intro n c hc
    rw [hexDigits] at hc
    rcases List.mem_append.mp hc with h | h
    · exact ih _ c h
    · rw [List.mem_singleton.mp h]
      exact hexChar_hex _ (Nat.mod_lt _ (by norm_num))

theorem matchesFormat_append :
    ∀ {f1 c1 : List Char}, f1.length = c1.length → ∀ (f2 c2 : List Char),
    matchesFormat (f1 ++ f2) (c1 ++ c2) =
      (matchesFormat f1 c1 && matchesFormat f2 c2) := by
  intro f1
  induction f1 with
  | nil =>
    intro c1 h f2 c2
    rw [List.length_nil] at h
    rw [List.eq_nil_of_length_eq_zero h.symm]
    simp [matchesFormat]
  | cons f fs ih =>
    intro c1 h f2 c2
    cases c1 with
    | nil => simp at h
    | cons c cs =>
      simp only [List.length_cons, Nat.succ.injEq] at h
      simp only [List.cons_append, List.append_eq, matchesFormat, ih h,
        Bool.and_assoc]

theorem matchesFormat_repx :
    ∀ {l : List Char}, (∀ c ∈ l, isHexDigitChar c = true) →
    matchesFormat (List.replicate l.length 'x') l = true := by
  intro l
  induction l with
  | nil => intro _; rfl
  | cons c cs ih =>
    intro h
    simp only [List.length_cons, List.replicate, matchesFormat, if_pos rfl]
    rw [h c (List.mem_cons_self c cs), ih (fun x hx => h x (List.mem_cons_of_mem c hx))]
    rfl

theorem matchesFormat_repk (k : Nat) (l : List Char) (hk : l.length = k)
    (hh : ∀ c ∈ l, isHexDigitChar c = true) :
    matchesFormat (List.replicate k 'x') l = true := by
  subst hk
  exact matchesFormat_repx hh

/-- Every generated UUID is a syntactically valid UUID-v4 string. -/
theorem isUUIDv4_genUUID (n : Nat) : isUUIDv4 (genUUID n) = true := by
  unfold isUUIDv4 genUUID
  have htpl : uuidTemplate =
      "xxxxxxxx-xxxx-4xxx-Nxxx-".data ++ List.replicate 12 'x' := by decide
  have hdata : (String.mk ("00000000-0000-4000-8000-".data ++ hexDigits 12 n)).data =
      "00000000-0000-4000-8000-".data ++ hexDigits 12 n := rfl
  rw [hdata, htpl]
  rw [matchesFormat_append (by decide)]
  have h1 : matchesFormat "xxxxxxxx-xxxx-4xxx-Nxxx-".data
      "00000000-0000-4000-8000-".data = true := by decide
  have h2 := matchesFormat_repk 12 (hexDigits 12 n)
    (hexDigits_length 12 n) (hexDigits_hex 12 n)
  rw [h1, h2]
  rfl

theorem hexCharVal_hexChar : ∀ m, m < 16 → hexCharVal (hexChar m) = m := by
  decide

theorem decodeHex_append_singleton (l : List Char) (c : Char) :
    decodeHex (l ++ [c]) = (decodeHex l) * 16 + hexCharVal c := by
  simp [decodeHex, List.foldl_append]

theorem mod_sixteen_pow (n k : Nat) :
    n % 16 ^ (k + 1) = 16 * (n / 16 % 16 ^ k) + n % 16 := by
  have hpos : 0 < 16 ^ k := pow_pos (by norm_num) k
  have hq : n / 16 % 16 ^ k < 16 ^ k := Nat.mod_lt _ hpos
  have hr : n % 16 < 16 := Nat.mod_lt _ (by norm_num)
  have hlt : 16 * (n / 16 % 16 ^ k) + n % 16 < 16 * 16 ^ k := by omega
  conv_lhs => rw [← Nat.div_add_mod n 16]
  rw [pow_succ']
  rw [Nat.add_mod, Nat.mul_mod_mul_left]
  have h16 : (n % 16) % (16 * 16 ^ k) = n % 16 :=
    Nat.mod_eq_of_lt (by omega)
  rw [h16]
  exact Nat.mod_eq_of_lt hlt

theorem decodeHex_hexDigits : ∀ (k n : Nat),
    decodeHex (hexDigits k n) = n % 16 ^ k := by
  intro k
  induction k with
  | zero => intro n; simp [hexDigits, decodeHex, Nat.mod_one]
  | succ k ih =>
    intro n
    rw [hexDigits, decodeHex_append_singleton, ih,
      hexCharVal_hexChar _ (Nat.mod_lt _ (by norm_num)), mod_sixteen_pow]
    ring

/-- Distinct draw counters below `16 ^ 12` give distinct UUIDs. -/
theorem genUUID_inj {a b : Nat} (ha : a < 16 ^ 12) (hb : b < 16 ^ 12)
    (h : genUUID a = genUUID b) : a = b := by
  have hd := congrArg String.data h
  simp only [genUUID] at hd
  have hc := List.append_cancel_left hd
  have := congrArg decodeHex hc
  rw [decodeHex_hexDigits, decodeHex_hexDigits,
    Nat.mod_eq_of_lt ha, Nat.mod_eq_of_lt hb] at this
  exact this

/-- Generated UUIDs are never empty. -/
theorem genUUID_ne_empty (n : Nat) : genUUID n ≠ "" := by
  intro h
  have := congrArg String.data h
  simp [genUUID] at this

theorem infix_append_left {x y : List Char} (z : List Char)
    (h : x <:+: y) : x <:+: z ++ y := by
  obtain ⟨s, t, rfl⟩ := h
  exact ⟨z ++ s, t, by simp⟩

theorem infix_append_right {x y : List Char} (z : List Char)
    (h : x <:+: y) : x <:+: y ++ z := by
  obtain ⟨s, t, rfl⟩ := h
  exact ⟨s, t ++ z, by simp⟩

/-- Every member of a comma-joined list occurs inside the join. -/
theorem mem_infix_joinStrs : ∀ {l : List String} {e : String}, e ∈ l →
    e.data <:+: (joinStrs l).data := by
  intro l
  induction l with
  | nil => intro e he; cases he
  | cons a rest ih =>
    intro e he
    rcases List.mem_cons.mp he with rfl | hmem
    · cases rest with
      | nil => exact ⟨[], [], by simp [joinStrs]⟩
      | cons b rs =>
        rw [joinStrs]
        exact ⟨[], (",".data ++ (joinStrs (b :: rs)).data), by
          show [] ++ e.data ++ (",".data ++ (joinStrs (b :: rs)).data) =
            (e ++ "," ++ joinStrs (b :: rs)).data
          simp⟩
    · cases rest with
      | nil => cases hmem
      | cons b rs =>
        rw [joinStrs]
        have hin := ih hmem
        have : (a ++ "," ++ joinStrs (b :: rs)).data =
            (a.data ++ ",".data) ++ (joinStrs (b :: rs)).data := by simp
        rw [this]
        exact infix_append_left _ hin

/-- Every error record's rendering occurs inside the rendered envelope. -/
theorem renderError_infix_renderResponse {r : RunwareResponseBody}
    {e : RunwareErrorResponseBody} (he : e ∈ r.errors) :
    (renderError e).data <:+: (renderResponse r).data := by
  have h1 : (renderError e).data <:+: (joinStrs (r.errors.map renderError)).data :=
    mem_infix_joinStrs (List.mem_map.mpr ⟨e, he, rfl⟩)
  unfold renderResponse
  have hsplit : ("\x7b \"Data\": [" ++ joinStrs (r.data.map renderSuccess) ++
      "], \"Errors\": [" ++ joinStrs (r.errors.map renderError) ++ "] \x7d").data =
      ("\x7b \"Data\": [" ++ joinStrs (r.data.map renderSuccess) ++
        "], \"Errors\": [").data ++
      (joinStrs (r.errors.map renderError)).data ++ "] \x7d".data := by simp
  rw [hsplit]
  exact infix_append_right _ (infix_append_left _ h1)

theorem countAbsent_append : ∀ l1 l2 : List OptionMap,
    countAbsent (l1 ++ l2) = countAbsent l1 + countAbsent l2 := by
  intro l1 l2
  induction l1 with
  | nil => simp [countAbsent]
  | cons d rest ih =>
    simp only [List.cons_append, List.append_eq, countAbsent, ih]
    omega

theorem countAbsent_le_length : ∀ l : List OptionMap,
    countAbsent l ≤ l.length := by
  intro l
  induction l with
  | nil => exact Nat.le_refl 0
  | cons d rest ih =>
    simp only [countAbsent, List.length_cons]
    by_cases hd : (d "taskUUID").isNone <;> simp [hd] <;> omega

/-- Two different absent-UUID positions of a batch leave different
counter prefixes behind. -/
theorem countAbsent_take_lt {opts : List OptionMap} {i j : Nat}
    (hij : i < j) (_hj : j ≤ opts.length) (hi : i < opts.length)
    (habs : (opts.get ⟨i, hi⟩) "taskUUID" = none) :
    countAbsent (opts.take i) < countAbsent (opts.take j) := by
  have hsplit : opts.take j = opts.take i ++ (opts.drop i).take (j - i) := by
    rw [← List.take_add]
    congr 1
    omega
  rw [hsplit, countAbsent_append]
  have hdrop : opts.drop i = opts.get ⟨i, hi⟩ :: opts.drop (i + 1) := by
    rw [List.drop_eq_getElem_cons hi]
    rfl
  obtain ⟨m, hm⟩ : ∃ m, j - i = m + 1 := ⟨j - i - 1, by omega⟩
  rw [hdrop, hm, List.take_succ_cons, countAbsent]
  rw [habs]
  simp

theorem taskEntries_keys_nodup (r : RunwareOptions) :
    ((taskEntries r).map Prod.fst).Nodup := by
  show (["checkNSFW", "height", "includeCost", "model", "numberOfResults",
    "outputFormat", "outputType", "positivePrompt", "taskType", "taskUUID",
    "uploadEndpoint", "width"] : List String).Nodup
  decide

theorem taskEntries_lookup_taskType (r : RunwareOptions) :
    (taskEntries r).lookup "taskType" = some (GoVal.taskTypeV r.taskType) := by
  rw [taskEntries, lookup_cons_ne (by decide), lookup_cons_ne (by decide),
    lookup_cons_ne (by decide), lookup_cons_ne (by decide),
    lookup_cons_ne (by decide), lookup_cons_ne (by decide),
    lookup_cons_ne (by decide), lookup_cons_ne (by decide), lookup_cons_self]

theorem taskEntries_lookup_taskUUID (r : RunwareOptions) :
    (taskEntries r).lookup "taskUUID" = some (GoVal.str r.taskUUID) := by
  rw [taskEntries, lookup_cons_ne (by decide), lookup_cons_ne (by decide),
    lookup_cons_ne (by decide), lookup_cons_ne (by decide),
    lookup_cons_ne (by decide), lookup_cons_ne (by decide),
    lookup_cons_ne (by decide), lookup_cons_ne (by decide),
    lookup_cons_ne (by decide), lookup_cons_self]

theorem taskEntries_lookup_prompt (r : RunwareOptions) :
    (taskEntries r).lookup "positivePrompt" = some (GoVal.str r.prompt) := by
  rw [taskEntries, lookup_cons_ne (by decide), lookup_cons_ne (by decide),
    lookup_cons_ne (by decide), lookup_cons_ne (by decide),
    lookup_cons_ne (by decide), lookup_cons_ne (by decide),
    lookup_cons_ne (by decide), lookup_cons_self]

theorem taskEntries_lookup_model (r : RunwareOptions) :
    (taskEntries r).lookup "model" = some (GoVal.str r.model) := by
  rw [taskEntries, lookup_cons_ne (by decide), lookup_cons_ne (by decide),
    lookup_cons_ne (by decide), lookup_cons_self]

theorem taskEntries_lookup_uploadEndpoint (r : RunwareOptions) :
    (taskEntries r).lookup "uploadEndpoint" =
      some (GoVal.str r.uploadEndpoint) := by
  rw [taskEntries, lookup_cons_ne (by decide), lookup_cons_ne (by decide),
    lookup_cons_ne (by decide), lookup_cons_ne (by decide),
    lookup_cons_ne (by decide), lookup_cons_ne (by decide),
    lookup_cons_ne (by decide), lookup_cons_ne (by decide),
    lookup_cons_ne (by decide), lookup_cons_ne (by decide), lookup_cons_self]

theorem taskEntries_lookup_results (r : RunwareOptions) :
    (taskEntries r).lookup "numberOfResults" =
      some (GoVal.uint8V r.numberOfResults) := by
  rw [taskEntries, lookup_cons_ne (by decide), lookup_cons_ne (by decide),
    lookup_cons_ne (by decide), lookup_cons_ne (by decide), lookup_cons_self]

theorem taskEntries_lookup_width (r : RunwareOptions) :
    (taskEntries r).lookup "width" = some (GoVal.definitionV r.width) := by
  rw [taskEntries, lookup_cons_ne (by decide), lookup_cons_ne (by decide),
    lookup_cons_ne (by decide), lookup_cons_ne (by decide),
    lookup_cons_ne (by decide), lookup_cons_ne (by decide),
    lookup_cons_ne (by decide), lookup_cons_ne (by decide),
    lookup_cons_ne (by decide), lookup_cons_ne (by decide),
    lookup_cons_ne (by decide), lookup_cons_self]

theorem taskEntries_lookup_height (r : RunwareOptions) :
    (taskEntries r).lookup "height" = some (GoVal.definitionV r.height) := by
  rw [taskEntries, lookup_cons_ne (by decide), lookup_cons_self]

theorem taskEntries_lookup_outputType (r : RunwareOptions) :
    (taskEntries r).lookup "outputType" =
      some (GoVal.outputTypeV r.outputType) := by
  rw [taskEntries, lookup_cons_ne (by decide), lookup_cons_ne (by decide),
    lookup_cons_ne (by decide), lookup_cons_ne (by decide),
    lookup_cons_ne (by decide), lookup_cons_ne (by decide), lookup_cons_self]

theorem taskEntries_lookup_outputFormat (r : RunwareOptions) :
    (taskEntries r).lookup "outputFormat" =
      some (GoVal.outputFormatV r.outputFormat) := by
  rw [taskEntries, lookup_cons_ne (by decide), lookup_cons_ne (by decide),
    lookup_cons_ne (by decide), lookup_cons_ne (by decide),
    lookup_cons_ne (by decide), lookup_cons_self]

/-- Payload shape through `buildClient`: one wire object per descriptor,
in order. -/
theorem buildClient_get {g : generateImagesV1Impl}
    {payload : List (List (String × GoVal))}
    (h : buildClient g = .ok payload) :
    payload.length = g.options.length ∧
    ∀ i (hi2 : i < g.options.length) (hip : i < payload.length),
      payload.get ⟨i, hip⟩ =
        skipEmptyOrNil (taskEntries (dimFix (g.options.get ⟨i, hi2⟩)))
          g.omittedFields := by
  rw [buildClient_eq] at h
  simp only [Except.ok.injEq] at h
  subst h
  refine ⟨by simp, ?_⟩
  intro i hi2 hip
  simp [List.getElem_map]

/-- C9: a body that fails to decode surfaces the decode error as a
transport failure, before the status code is ever inspected. -/
theorem c9_decode_error_precedes_status (g : generateImagesV1Impl)
    (resp : HttpResponse) (e : String) (hbody : resp.body = .error e) :
    sendRequest g (.ok resp) = .error (.transportError e) := by
  rw [sendRequest, buildClient_eq]
  show handleResponse resp = _
  rw [handleResponse, hbody]

/-- C9 witness: an HTTP 500 response with an undecodable body yields the
decode error, not a provider error. -/
theorem c9_decode_error_precedes_status_witness :
    sendRequest (NewGenerateImagesV1 "key")
      (.ok ⟨500, .error "invalid character"⟩) =
      .error (.transportError "invalid character") :=
  c9_decode_error_precedes_status (NewGenerateImagesV1 "key")
    ⟨500, .error "invalid character"⟩ "invalid character" rfl

/-- C7: a decodable envelope with status `>= 400` fails with the
re-serialized envelope as detail — the provider's structured error
records all occur inside the detail, no success records are returned,
and the detail does not mention the status code (it is the same for any
failing status). -/
theorem c7_provider_error_surfaced (g : generateImagesV1Impl)
    (resp : HttpResponse) (r : RunwareResponseBody)
    (hbody : resp.body = .ok r) (hstatus : 400 ≤ resp.statusCode) :
    sendRequest g (.ok resp) = .error (.providerError (renderResponse r)) ∧
    (∀ recs, sendRequest g (.ok resp) ≠ .ok recs) ∧
    (∀ e ∈ r.errors, (renderError e).data <:+: (renderResponse r).data) ∧
    (∀ status2 : Nat, 400 ≤ status2 →
      sendRequest g (.ok ⟨status2, resp.body⟩) = sendRequest g (.ok resp)) := by
  have h1 : ∀ st : Nat, 400 ≤ st → sendRequest g (.ok ⟨st, resp.body⟩) =
      .error (.providerError (renderResponse r)) := by
    intro st hst
    rw [sendRequest, buildClient_eq]
    show handleResponse ⟨st, resp.body⟩ = _
    rw [handleResponse]
    simp only [hbody]
    rw [if_pos hst]
  have hself : sendRequest g (.ok resp) =
      .error (.providerError (renderResponse r)) := by
    have := h1 resp.statusCode hstatus
    simpa using this
  refine ⟨hself, ?_, ?_, ?_⟩
  · intro recs hcontra
    rw [hself] at hcontra
    cases hcontra
  · intro e he
    exact renderError_infix_renderResponse he
  · intro st2 hst2
    rw [h1 st2 hst2, hself]

/-- C7 witness: a 400 response whose envelope carries the "bad width"
error record fails with that record rendered in the detail. -/
theorem c7_provider_error_surfaced_witness :
    sendRequest (NewGenerateImagesV1 "key")
      (.ok ⟨400, .ok ⟨[], [⟨"X", "bad width", "width", "validation",
        "imageInference"⟩]⟩⟩) =
      .error (.providerError (renderResponse
        ⟨[], [⟨"X", "bad width", "width", "validation",
          "imageInference"⟩]⟩)) :=
  (c7_provider_error_surfaced (NewGenerateImagesV1 "key")
    ⟨400, .ok ⟨[], [⟨"X", "bad width", "width", "validation",
      "imageInference"⟩]⟩⟩
    ⟨[], [⟨"X", "bad width", "width", "validation", "imageInference"⟩]⟩
    rfl (by decide)).1

/-- C1: a task that does not supply `checkNSFW` (resp. `includeCost`)
has no such key in its own serialized wire object — the flag is dropped,
not serialized as `false`. -/
theorem c1_unsupplied_flags_dropped {gen : Nat → String}
    {g g' : generateImagesV1Impl} {opts : List OptionMap} {ctr ctr' : Nat}
    {payload : List (List (String × GoVal))}
    (hcfg : Config gen g opts ctr = .ok (g', ctr'))
    (hpay : buildClient g' = .ok payload)
    {i : Nat} (hi : i < opts.length) (hip : i < payload.length) :
    ((opts.get ⟨i, hi⟩) "checkNSFW" = none →
      (payload.get ⟨i, hip⟩).lookup "checkNSFW" = none) ∧
    ((opts.get ⟨i, hi⟩) "includeCost" = none →
      (payload.get ⟨i, hip⟩).lookup "includeCost" = none) := by
  obtain ⟨hcl, _, hom⟩ := Config_ok hcfg
  obtain ⟨hlen, hidx⟩ := buildClient_get hpay
  obtain ⟨hlen2, _, _⟩ := configList_spec hcl
  have hi2 : i < g'.options.length := by omega
  rw [hidx i hi2 hip]
  constructor
  · intro habs
    have hmem : "checkNSFW" ∈ g'.omittedFields := by
      rw [hom]
      exact List.mem_append.mpr
        (Or.inr (mem_batchOmissions hi (checkNSFW_mem_taskOmissions habs)))
    exact lookup_skip_of_mem hmem _
  · intro habs
    have hmem : "includeCost" ∈ g'.omittedFields := by
      rw [hom]
      exact List.mem_append.mpr
        (Or.inr (mem_batchOmissions hi (includeCost_mem_taskOmissions habs)))
    exact lookup_skip_of_mem hmem _

/-- C1 witness: one task supplying only a prompt and an explicit UUID
serializes with neither boolean flag key. -/
theorem c1_unsupplied_flags_dropped_witness :
    (List.lookup "checkNSFW" [("height", GoVal.definitionV 0),
      ("numberOfResults", GoVal.uint8V 0),
      ("outputFormat", GoVal.outputFormatV ""),
      ("outputType", GoVal.outputTypeV ""),
      ("positivePrompt", GoVal.str "p"), ("taskType", GoVal.taskTypeV ""),
      ("taskUUID", GoVal.str "t"), ("width", GoVal.definitionV 0)] = none) ∧
    (List.lookup "includeCost" [("height", GoVal.definitionV 0),
      ("numberOfResults", GoVal.uint8V 0),
      ("outputFormat", GoVal.outputFormatV ""),
      ("outputType", GoVal.outputTypeV ""),
      ("positivePrompt", GoVal.str "p"), ("taskType", GoVal.taskTypeV ""),
      ("taskUUID", GoVal.str "t"), ("width", GoVal.definitionV 0)] = none) := by
  have h := @c1_unsupplied_flags_dropped genUUID (NewGenerateImagesV1 "key")
    ⟨"key", [⟨"", "t", "p", "", "", "", "", 0, 0, 0, false, false⟩],
      ["checkNSFW", "includeCost"]⟩
    [fun k => if k = "taskUUID" then some (GoVal.str "t")
      else if k = "prompt" then some (GoVal.str "p") else none]
    0 0
    [[("height", GoVal.definitionV 0),
      ("numberOfResults", GoVal.uint8V 0),
      ("outputFormat", GoVal.outputFormatV ""),
      ("outputType", GoVal.outputTypeV ""),
      ("positivePrompt", GoVal.str "p"), ("taskType", GoVal.taskTypeV ""),
      ("taskUUID", GoVal.str "t"), ("width", GoVal.definitionV 0)]]
    (by decide) (by decide) 0 (by decide) (by decide)
  exact ⟨h.1 (by decide), h.2 (by decide)⟩

/-- C4: the omission list is accumulated batch-wide, not per task — one
task's missing `checkNSFW` (resp. `includeCost`) removes the key from
every task's wire object in the batch, even where it was supplied
explicitly. -/
theorem c4_omissions_accumulate_across_tasks {gen : Nat → String}
    {g g' : generateImagesV1Impl} {opts : List OptionMap} {ctr ctr' : Nat}
    {payload : List (List (String × GoVal))}
    (hcfg : Config gen g opts ctr = .ok (g', ctr'))
    (hpay : buildClient g' = .ok payload)
    {j : Nat} (hj : j < opts.length) :
    ((opts.get ⟨j, hj⟩) "checkNSFW" = none →
      ∀ i (hip : i < payload.length),
        (payload.get ⟨i, hip⟩).lookup "checkNSFW" = none) ∧
    ((opts.get ⟨j, hj⟩) "includeCost" = none →
      ∀ i (hip : i < payload.length),
        (payload.get ⟨i, hip⟩).lookup "includeCost" = none) := by
  obtain ⟨hcl, _, hom⟩ := Config_ok hcfg
  obtain ⟨hlen, hidx⟩ := buildClient_get hpay
  constructor
  · intro habs i hip
    have hi2 : i < g'.options.length := by omega
    rw [hidx i hi2 hip]
    have hmem : "checkNSFW" ∈ g'.omittedFields := by
      rw [hom]
      exact List.mem_append.mpr
        (Or.inr (mem_batchOmissions hj (checkNSFW_mem_taskOmissions habs)))
    exact lookup_skip_of_mem hmem _
  · intro habs i hip
    have hi2 : i < g'.options.length := by omega
    rw [hidx i hi2 hip]
    have hmem : "includeCost" ∈ g'.omittedFields := by
      rw [hom]
      exact List.mem_append.mpr
        (Or.inr (mem_batchOmissions hj (includeCost_mem_taskOmissions habs)))
    exact lookup_skip_of_mem hmem _

/-- C4 witness: task 0 omits both flags while task 1 supplies
`checkNSFW = true` and `includeCost = false`; the flags are nonetheless
dropped from task 1's wire object. -/
theorem c4_omissions_accumulate_across_tasks_witness :
    (List.lookup "checkNSFW" [("height", GoVal.definitionV 0),
      ("numberOfResults", GoVal.uint8V 0),
      ("outputFormat", GoVal.outputFormatV ""),
      ("outputType", GoVal.outputTypeV ""),
      ("positivePrompt", GoVal.str "q"), ("taskType", GoVal.taskTypeV ""),
      ("taskUUID", GoVal.str "u2"), ("width", GoVal.definitionV 0)] = none) ∧
    (List.lookup "includeCost" [("height", GoVal.definitionV 0),
      ("numberOfResults", GoVal.uint8V 0),
      ("outputFormat", GoVal.outputFormatV ""),
      ("outputType", GoVal.outputTypeV ""),
      ("positivePrompt", GoVal.str "q"), ("taskType", GoVal.taskTypeV ""),
      ("taskUUID", GoVal.str "u2"), ("width", GoVal.definitionV 0)] = none) := by
  have h := @c4_omissions_accumulate_across_tasks genUUID
    (NewGenerateImagesV1 "key")
    ⟨"key", [⟨"", "u1", "p", "", "", "", "", 0, 0, 0, false, false⟩,
      ⟨"", "u2", "q", "", "", "", "", 0, 0, 0, true, false⟩],
      ["checkNSFW", "includeCost"]⟩
    [fun k => if k = "taskUUID" then some (GoVal.str "u1")
      else if k = "prompt" then some (GoVal.str "p") else none,
     fun k => if k = "taskUUID" then some (GoVal.str "u2")
      else if k = "prompt" then some (GoVal.str "q")
      else if k = "checkNSFW" then some (GoVal.boolV true)
      else if k = "includeCost" then some (GoVal.boolV false) else none]
    0 0
    [[("height", GoVal.definitionV 0), ("numberOfResults", GoVal.uint8V 0),
      ("outputFormat", GoVal.outputFormatV ""),
      ("outputType", GoVal.outputTypeV ""),
      ("positivePrompt", GoVal.str "p"), ("taskType", GoVal.taskTypeV ""),
      ("taskUUID", GoVal.str "u1"), ("width", GoVal.definitionV 0)],
     [("height", GoVal.definitionV 0), ("numberOfResults", GoVal.uint8V 0),
      ("outputFormat", GoVal.outputFormatV ""),
      ("outputType", GoVal.outputTypeV ""),
      ("positivePrompt", GoVal.str "q"), ("taskType", GoVal.taskTypeV ""),
      ("taskUUID", GoVal.str "u2"), ("width", GoVal.definitionV 0)]]
    (by decide) (by decide) 0 (by decide)
  exact ⟨h.1 (by decide) 1 (by decide), h.2 (by decide) 1 (by decide)⟩

/-- C2 counterexample: `Definition(300)` is not one of the preset pixel
values, yet the batch configures, builds, and submits without any
configuration error — the wire object carries `width: 300` and a mock
200 exchange completes. -/
theorem c2_counterexample :
    (300 ∉ supportedDefinitions) ∧
    Config genUUID (NewGenerateImagesV1 "key")
      [fun k => if k = "taskUUID" then some (GoVal.str "t")
        else if k = "width" then some (GoVal.definitionV 300) else none] 0 =
      .ok (⟨"key", [⟨"", "t", "", "", "", "", "", 300, 0, 0, false, false⟩],
        ["checkNSFW", "includeCost"]⟩, 0) ∧
    buildClient ⟨"key",
        [⟨"", "t", "", "", "", "", "", 300, 0, 0, false, false⟩],
        ["checkNSFW", "includeCost"]⟩ =
      .ok [[("height", GoVal.definitionV 0),
        ("numberOfResults", GoVal.uint8V 0),
        ("outputFormat", GoVal.outputFormatV ""),
        ("outputType", GoVal.outputTypeV ""),
        ("taskType", GoVal.taskTypeV ""), ("taskUUID", GoVal.str "t"),
        ("width", GoVal.definitionV 300)]] ∧
    sendRequest ⟨"key",
        [⟨"", "t", "", "", "", "", "", 300, 0, 0, false, false⟩],
        ["checkNSFW", "includeCost"]⟩ (.ok ⟨200, .ok ⟨[], []⟩⟩) =
      .ok [] := by
  refine ⟨by decide, by decide, by decide, by decide⟩

/-- C2 amended: `getDimensionValue` checks only the Go dynamic type of
its argument, and the descriptor fields are statically
`Definition`-typed, so dimension resolution always succeeds in
`buildClient` — the payload is built for every batch, whatever the pixel
values, and no configuration error is ever raised there.  (A
non-`Definition`-typed width or height supplied to `Config` panics in
the type assertion instead — see C10.) -/
theorem c2_amended_dimension_check_is_type_only :
    (∀ n : Nat, getDimensionValue (GoVal.definitionV n) = .ok (toInt16 n)) ∧
    (∀ g : generateImagesV1Impl, buildClient g = .ok (g.options.map
      (fun r => skipEmptyOrNil (taskEntries (dimFix r)) g.omittedFields))) := by
  exact ⟨fun n => rfl, buildClient_eq⟩

/-- C3 counterexample: a first `Config` call that omits both boolean
flags contaminates a second call on the same client — the second call's
payload drops `checkNSFW` even though its own task supplied
`checkNSFW = false`, while the same call on a freshly constructed client
keeps the key.  The serialized payload after the second call is NOT the
same as on a fresh client. -/
theorem c3_counterexample :
    ((Config genUUID (NewGenerateImagesV1 "key") [fun _ => none] 0).bind
      (fun gc => (Config genUUID gc.1
        [fun k => if k = "taskUUID" then some (GoVal.str "t2")
          else if k = "prompt" then some (GoVal.str "p")
          else if k = "checkNSFW" then some (GoVal.boolV false)
          else if k = "includeCost" then some (GoVal.boolV true)
          else none] gc.2).bind
        (fun gc2 => buildClient gc2.1))) =
      .ok [[("height", GoVal.definitionV 0),
        ("numberOfResults", GoVal.uint8V 0),
        ("outputFormat", GoVal.outputFormatV ""),
        ("outputType", GoVal.outputTypeV ""),
        ("positivePrompt", GoVal.str "p"), ("taskType", GoVal.taskTypeV ""),
        ("taskUUID", GoVal.str "t2"), ("width", GoVal.definitionV 0)]] ∧
    ((Config genUUID (NewGenerateImagesV1 "key")
        [fun k => if k = "taskUUID" then some (GoVal.str "t2")
          else if k = "prompt" then some (GoVal.str "p")
          else if k = "checkNSFW" then some (GoVal.boolV false)
          else if k = "includeCost" then some (GoVal.boolV true)
          else none] 0).bind
      (fun gc => buildClient gc.1)) =
      .ok [[("checkNSFW", GoVal.boolV false),
        ("height", GoVal.definitionV 0),
        ("includeCost", GoVal.boolV true),
        ("numberOfResults", GoVal.uint8V 0),
        ("outputFormat", GoVal.outputFormatV ""),
        ("outputType", GoVal.outputTypeV ""),
        ("positivePrompt", GoVal.str "p"), ("taskType", GoVal.taskTypeV ""),
        ("taskUUID", GoVal.str "t2"), ("width", GoVal.definitionV 0)]] ∧
    (List.lookup "checkNSFW" [("height", GoVal.definitionV 0),
        ("numberOfResults", GoVal.uint8V 0),
        ("outputFormat", GoVal.outputFormatV ""),
        ("outputType", GoVal.outputTypeV ""),
        ("positivePrompt", GoVal.str "p"), ("taskType", GoVal.taskTypeV ""),
        ("taskUUID", GoVal.str "t2"), ("width", GoVal.definitionV 0)] =
      none) ∧
    ([[("height", GoVal.definitionV 0), ("numberOfResults", GoVal.uint8V 0),
        ("outputFormat", GoVal.outputFormatV ""),
        ("outputType", GoVal.outputTypeV ""),
        ("positivePrompt", GoVal.str "p"), ("taskType", GoVal.taskTypeV ""),
        ("taskUUID", GoVal.str "t2"), ("width", GoVal.definitionV 0)]]
      ≠ ([[("checkNSFW", GoVal.boolV false), ("height", GoVal.definitionV 0),
        ("includeCost", GoVal.boolV true),
        ("numberOfResults", GoVal.uint8V 0),
        ("outputFormat", GoVal.outputFormatV ""),
        ("outputType", GoVal.outputTypeV ""),
        ("positivePrompt", GoVal.str "p"), ("taskType", GoVal.taskTypeV ""),
        ("taskUUID", GoVal.str "t2"), ("width", GoVal.definitionV 0)]] :
        List (List (String × GoVal)))) := by
  refine ⟨by decide, by decide, by decide, by decide⟩

/-- C3 amended: after two successive `Config` calls the descriptor
sequence is fresh — identical to the one a freshly constructed client
produces for the second argument — but the omission-tracking set is not:
it accumulates the first call's omissions in front of the second call's,
so the serialized payload can differ from the fresh client's. -/
theorem c3_amended_options_fresh_omissions_accumulate
    {gen : Nat → String} {key : String} {opts1 opts2 : List OptionMap}
    {ctr ctr1 ctr2 ctr2f : Nat} {g1 g2 g2f : generateImagesV1Impl}
    (h1 : Config gen (NewGenerateImagesV1 key) opts1 ctr = .ok (g1, ctr1))
    (h2 : Config gen g1 opts2 ctr1 = .ok (g2, ctr2))
    (hf : Config gen (NewGenerateImagesV1 key) opts2 ctr1 = .ok (g2f, ctr2f)) :
    g2.options = g2f.options ∧ ctr2 = ctr2f ∧
    g2.omittedFields = batchOmissions opts1 ++ batchOmissions opts2 ∧
    g2f.omittedFields = batchOmissions opts2 := by
  obtain ⟨hc1, _, hom1⟩ := Config_ok h1
  obtain ⟨hc2, _, hom2⟩ := Config_ok h2
  obtain ⟨hcf, _, homf⟩ := Config_ok hf
  have heq := hc2.symm.trans hcf
  simp only [Except.ok.injEq, Prod.mk.injEq] at heq
  refine ⟨heq.1, heq.2, ?_, ?_⟩
  · rw [hom2, hom1]
    simp [NewGenerateImagesV1]
  · rw [homf]
    simp [NewGenerateImagesV1]

/-- C3 amended witness: concrete two-call run matching the
counterexample's inputs. -/
theorem c3_amended_witness :
    ([⟨"", "t2", "p", "", "", "", "", 0, 0, 0, false, true⟩] :
      List RunwareOptions) =
      [⟨"", "t2", "p", "", "", "", "", 0, 0, 0, false, true⟩] ∧
    (1 : Nat) = 1 ∧
    (["checkNSFW", "includeCost"] : List String) =
      batchOmissions [fun _ => none] ++ batchOmissions
        [fun k => if k = "taskUUID" then some (GoVal.str "t2")
          else if k = "prompt" then some (GoVal.str "p")
          else if k = "checkNSFW" then some (GoVal.boolV false)
          else if k = "includeCost" then some (GoVal.boolV true)
          else none] ∧
    ([] : List String) = batchOmissions
        [fun k => if k = "taskUUID" then some (GoVal.str "t2")
          else if k = "prompt" then some (GoVal.str "p")
          else if k = "checkNSFW" then some (GoVal.boolV false)
          else if k = "includeCost" then some (GoVal.boolV true)
          else none] := by
  have h := @c3_amended_options_fresh_omissions_accumulate genUUID "key"
    [fun _ => none]
    [fun k => if k = "taskUUID" then some (GoVal.str "t2")
      else if k = "prompt" then some (GoVal.str "p")
      else if k = "checkNSFW" then some (GoVal.boolV false)
      else if k = "includeCost" then some (GoVal.boolV true)
      else none]
    0 1 1 1
    ⟨"key", [⟨"", "00000000-0000-4000-8000-000000000000", "", "", "", "",
      "", 0, 0, 0, false, false⟩], ["checkNSFW", "includeCost"]⟩
    ⟨"key", [⟨"", "t2", "p", "", "", "", "", 0, 0, 0, false, true⟩],
      ["checkNSFW", "includeCost"]⟩
    ⟨"key", [⟨"", "t2", "p", "", "", "", "", 0, 0, 0, false, true⟩], []⟩
    (by decide) (by decide) (by decide)
  exact ⟨h.1, h.2.1, h.2.2.1, h.2.2.2⟩

/-- C5 counterexample: a task supplying only `taskUUID` and `prompt`
still serializes `numberOfResults: 0`, `width: 0`, `height: 0` and
empty-string `taskType`/`outputType`/`outputFormat` — the unset fields
are not absent from the wire object. -/
theorem c5_counterexample :
    ((fun k => if k = "taskUUID" then some (GoVal.str "t")
       else if k = "prompt" then some (GoVal.str "p") else none :
       OptionMap) "results" = none) ∧
    ((fun k => if k = "taskUUID" then some (GoVal.str "t")
       else if k = "prompt" then some (GoVal.str "p") else none :
       OptionMap) "width" = none) ∧
    ((Config genUUID (NewGenerateImagesV1 "key")
      [fun k => if k = "taskUUID" then some (GoVal.str "t")
        else if k = "prompt" then some (GoVal.str "p") else none] 0).bind
      (fun gc => buildClient gc.1)) =
      .ok [[("height", GoVal.definitionV 0),
        ("numberOfResults", GoVal.uint8V 0),
        ("outputFormat", GoVal.outputFormatV ""),
        ("outputType", GoVal.outputTypeV ""),
        ("positivePrompt", GoVal.str "p"), ("taskType", GoVal.taskTypeV ""),
        ("taskUUID", GoVal.str "t"), ("width", GoVal.definitionV 0)]] ∧
    (List.lookup "numberOfResults" [("height", GoVal.definitionV 0),
        ("numberOfResults", GoVal.uint8V 0),
        ("outputFormat", GoVal.outputFormatV ""),
        ("outputType", GoVal.outputTypeV ""),
        ("positivePrompt", GoVal.str "p"), ("taskType", GoVal.taskTypeV ""),
        ("taskUUID", GoVal.str "t"), ("width", GoVal.definitionV 0)] =
      some (GoVal.uint8V 0)) ∧
    (List.lookup "width" [("height", GoVal.definitionV 0),
        ("numberOfResults", GoVal.uint8V 0),
        ("outputFormat", GoVal.outputFormatV ""),
        ("outputType", GoVal.outputTypeV ""),
        ("positivePrompt", GoVal.str "p"), ("taskType", GoVal.taskTypeV ""),
        ("taskUUID", GoVal.str "t"), ("width", GoVal.definitionV 0)] =
      some (GoVal.definitionV 0)) ∧
    (List.lookup "outputType" [("height", GoVal.definitionV 0),
        ("numberOfResults", GoVal.uint8V 0),
        ("outputFormat", GoVal.outputFormatV ""),
        ("outputType", GoVal.outputTypeV ""),
        ("positivePrompt", GoVal.str "p"), ("taskType", GoVal.taskTypeV ""),
        ("taskUUID", GoVal.str "t"), ("width", GoVal.definitionV 0)] =
      some (GoVal.outputTypeV "")) := by
  refine ⟨rfl, rfl, by decide, by decide, by decide, by decide⟩

/-- C5 amended: only fields whose Go dynamic type is `string` are
dropped when unset (`model`, `uploadEndpoint`, the prompt, and the
caller-supplied `taskUUID`), along with the tracked boolean flags.  An
unset `resultCount`, `width` or `height` serializes as `0`, and an unset
`taskType`/`outputType`/`outputFormat` serializes as an empty string,
because the Go interface comparison `value == ""` never matches their
named types. -/
theorem c5_amended_only_string_empties_dropped {gen : Nat → String}
    {key : String} {opts : List OptionMap} {ctr ctr' : Nat}
    {g' : generateImagesV1Impl} {payload : List (List (String × GoVal))}
    (hcfg : Config gen (NewGenerateImagesV1 key) opts ctr = .ok (g', ctr'))
    (hpay : buildClient g' = .ok payload)
    {i : Nat} (hi : i < opts.length) (hip : i < payload.length) :
    ((opts.get ⟨i, hi⟩) "model" = none →
      (payload.get ⟨i, hip⟩).lookup "model" = none) ∧
    ((opts.get ⟨i, hi⟩) "uploadEndpoint" = none →
      (payload.get ⟨i, hip⟩).lookup "uploadEndpoint" = none) ∧
    ((opts.get ⟨i, hi⟩) "prompt" = none →
      (payload.get ⟨i, hip⟩).lookup "positivePrompt" = none) ∧
    ((opts.get ⟨i, hi⟩) "results" = none →
      (payload.get ⟨i, hip⟩).lookup "numberOfResults" =
        some (GoVal.uint8V 0)) ∧
    ((opts.get ⟨i, hi⟩) "width" = none →
      (payload.get ⟨i, hip⟩).lookup "width" = some (GoVal.definitionV 0)) ∧
    ((opts.get ⟨i, hi⟩) "height" = none →
      (payload.get ⟨i, hip⟩).lookup "height" = some (GoVal.definitionV 0)) ∧
    ((opts.get ⟨i, hi⟩) "taskType" = none →
      (payload.get ⟨i, hip⟩).lookup "taskType" =
        some (GoVal.taskTypeV "")) ∧
    ((opts.get ⟨i, hi⟩) "outputType" = none →
      (payload.get ⟨i, hip⟩).lookup "outputType" =
        some (GoVal.outputTypeV "")) ∧
    ((opts.get ⟨i, hi⟩) "outputFormat" = none →
      (payload.get ⟨i, hip⟩).lookup "outputFormat" =
        some (GoVal.outputFormatV "")) := by
  obtain ⟨hcl, _, hom⟩ := Config_ok hcfg
  obtain ⟨hlen, hidx⟩ := buildClient_get hpay
  obtain ⟨hlen2, _, hidx2⟩ := configList_spec hcl
  have hi2 : i < g'.options.length := by omega
  have hone := hidx2 i hi hi2
  have spec := configOne_spec hone
  rw [hidx i hi2 hip]
  have hnm : ∀ k : String, k ≠ "checkNSFW" → k ≠ "includeCost" →
      k ∉ g'.omittedFields := by
    intro k h1 h2 hmem
    rw [hom] at hmem
    simp [NewGenerateImagesV1] at hmem
    rcases batchOmissions_flags hmem with h | h
    · exact h1 h
    · exact h2 h
  refine ⟨?_, ?_, ?_, ?_, ?_, ?_, ?_, ?_, ?_⟩
  · intro habs
    rw [lookup_skipEmptyOrNil_nodup (taskEntries_keys_nodup _),
      taskEntries_lookup_model]
    have hf : (dimFix (g'.options.get ⟨i, hi2⟩)).model = "" := by
      simp [dimFix]
      exact spec.2.2.2.2.2.2.2.2.2.2.1 habs
    rw [hf]
    simp [isEmptyOrNil]
  · intro habs
    rw [lookup_skipEmptyOrNil_nodup (taskEntries_keys_nodup _),
      taskEntries_lookup_uploadEndpoint]
    have hf : (dimFix (g'.options.get ⟨i, hi2⟩)).uploadEndpoint = "" := by
      simp [dimFix]
      exact spec.2.2.2.2.2.2.2.2.2.2.2.2.2.2.1 habs
    rw [hf]
    simp [isEmptyOrNil]
  · intro habs
    rw [lookup_skipEmptyOrNil_nodup (taskEntries_keys_nodup _),
      taskEntries_lookup_prompt]
    have hf : (dimFix (g'.options.get ⟨i, hi2⟩)).prompt = "" := by
      simp [dimFix]
      exact spec.2.2.2.2.1 habs
    rw [hf]
    simp [isEmptyOrNil]
  · intro habs
    rw [lookup_skipEmptyOrNil_nodup (taskEntries_keys_nodup _),
      taskEntries_lookup_results]
    have hf : (dimFix (g'.options.get ⟨i, hi2⟩)).numberOfResults = 0 := by
      simp [dimFix]
      exact spec.2.2.2.2.2.2.2.2.2.2.2.2.1 habs
    rw [hf]
    simp [isEmptyOrNil, hnm "numberOfResults" (by decide) (by decide)]
  · intro habs
    rw [lookup_skipEmptyOrNil_nodup (taskEntries_keys_nodup _),
      taskEntries_lookup_width]
    have hf : (dimFix (g'.options.get ⟨i, hi2⟩)).width = 0 := by
      show toUint16 (toInt16 (g'.options.get ⟨i, hi2⟩).width) = 0
      rw [spec.2.2.2.2.2.2.1 habs]
      decide
    rw [hf]
    simp [isEmptyOrNil, hnm "width" (by decide) (by decide)]
  · intro habs
    rw [lookup_skipEmptyOrNil_nodup (taskEntries_keys_nodup _),
      taskEntries_lookup_height]
    have hf : (dimFix (g'.options.get ⟨i, hi2⟩)).height = 0 := by
      show toUint16 (toInt16 (g'.options.get ⟨i, hi2⟩).height) = 0
      rw [spec.2.2.2.2.2.2.2.2.1 habs]
      decide
    rw [hf]
    simp [isEmptyOrNil, hnm "height" (by decide) (by decide)]
  · intro habs
    rw [lookup_skipEmptyOrNil_nodup (taskEntries_keys_nodup _),
      taskEntries_lookup_taskType]
    have hf : (dimFix (g'.options.get ⟨i, hi2⟩)).taskType = "" := by
      simp [dimFix]
      exact spec.1 habs
    rw [hf]
    simp [isEmptyOrNil, hnm "taskType" (by decide) (by decide)]
  · intro habs
    rw [lookup_skipEmptyOrNil_nodup (taskEntries_keys_nodup _),
      taskEntries_lookup_outputType]
    have hf : (dimFix (g'.options.get ⟨i, hi2⟩)).outputType = "" := by
      simp [dimFix]
      exact spec.2.2.2.2.2.2.2.2.2.2.2.2.2.2.2.2.2.2.2.2.1 habs
    rw [hf]
    simp [isEmptyOrNil, hnm "outputType" (by decide) (by decide)]
  · intro habs
    rw [lookup_skipEmptyOrNil_nodup (taskEntries_keys_nodup _),
      taskEntries_lookup_outputFormat]
    have hf : (dimFix (g'.options.get ⟨i, hi2⟩)).outputFormat = "" := by
      simp [dimFix]
      exact spec.2.2.2.2.2.2.2.2.2.2.2.2.2.2.2.2.2.2.2.2.2.2.1 habs
    rw [hf]
    simp [isEmptyOrNil, hnm "outputFormat" (by decide) (by decide)]

/-- C5 amended witness: in the prompt-only task, the unset `model` key
is absent while the unset result count is serialized as `0`. -/
theorem c5_amended_witness :
    (List.lookup "model" [("height", GoVal.definitionV 0),
      ("numberOfResults", GoVal.uint8V 0),
      ("outputFormat", GoVal.outputFormatV ""),
      ("outputType", GoVal.outputTypeV ""),
      ("positivePrompt", GoVal.str "p"), ("taskType", GoVal.taskTypeV ""),
      ("taskUUID", GoVal.str "t"), ("width", GoVal.definitionV 0)] =
      none) ∧
    (List.lookup "numberOfResults" [("height", GoVal.definitionV 0),
      ("numberOfResults", GoVal.uint8V 0),
      ("outputFormat", GoVal.outputFormatV ""),
      ("outputType", GoVal.outputTypeV ""),
      ("positivePrompt", GoVal.str "p"), ("taskType", GoVal.taskTypeV ""),
      ("taskUUID", GoVal.str "t"), ("width", GoVal.definitionV 0)] =
      some (GoVal.uint8V 0)) := by
  have h := @c5_amended_only_string_empties_dropped genUUID "key"
    [fun k => if k = "taskUUID" then some (GoVal.str "t")
      else if k = "prompt" then some (GoVal.str "p") else none]
    0 0
    ⟨"key", [⟨"", "t", "p", "", "", "", "", 0, 0, 0, false, false⟩],
      ["checkNSFW", "includeCost"]⟩
    [[("height", GoVal.definitionV 0), ("numberOfResults", GoVal.uint8V 0),
      ("outputFormat", GoVal.outputFormatV ""),
      ("outputType", GoVal.outputTypeV ""),
      ("positivePrompt", GoVal.str "p"), ("taskType", GoVal.taskTypeV ""),
      ("taskUUID", GoVal.str "t"), ("width", GoVal.definitionV 0)]]
    (by decide) (by decide) 0 (by decide) (by decide)
  exact ⟨h.1 (by decide), h.2.2.2.1 (by decide)⟩

/-- C6 counterexample: a caller-supplied empty-string `taskUUID` is used
verbatim, so the resulting descriptor's task ID is empty — the claim's
"every resulting descriptor has a non-empty task ID" fails. -/
theorem c6_counterexample :
    Config genUUID (NewGenerateImagesV1 "key")
      [fun k => if k = "taskUUID" then some (GoVal.str "") else none] 0 =
      .ok (⟨"key", [⟨"", "", "", "", "", "", "", 0, 0, 0, false, false⟩],
        ["checkNSFW", "includeCost"]⟩, 0) ∧
    (⟨"", "", "", "", "", "", "", 0, 0, 0, false, false⟩ :
      RunwareOptions).taskUUID = "" := by
  refine ⟨by decide, rfl⟩

/-- C6 amended: a task whose mapping lacks `taskUUID` receives a freshly
drawn, syntactically valid, non-empty UUID-v4, distinct from every other
generated ID of the batch (within the generator's collision bound); a
supplied `taskUUID` must be a Go string and is used verbatim — including
the empty string, so only generated IDs are guaranteed non-empty. -/
theorem c6_amended_uuid_assignment {g : generateImagesV1Impl}
    {opts : List OptionMap} {ctr ctr' : Nat} {g' : generateImagesV1Impl}
    (hcfg : Config genUUID g opts ctr = .ok (g', ctr'))
    (hbound : ctr + opts.length ≤ 16 ^ 12) :
    g'.options.length = opts.length ∧
    ∀ i (hi : i < opts.length) (hi2 : i < g'.options.length),
      ((opts.get ⟨i, hi⟩) "taskUUID" = none →
        (g'.options.get ⟨i, hi2⟩).taskUUID =
          genUUID (ctr + countAbsent (opts.take i)) ∧
        isUUIDv4 ((g'.options.get ⟨i, hi2⟩).taskUUID) = true ∧
        (g'.options.get ⟨i, hi2⟩).taskUUID ≠ "" ∧
        (∀ j (hj : j < opts.length) (hj2 : j < g'.options.length), j ≠ i →
          (opts.get ⟨j, hj⟩) "taskUUID" = none →
          (g'.options.get ⟨j, hj2⟩).taskUUID ≠
            (g'.options.get ⟨i, hi2⟩).taskUUID)) ∧
      (∀ v, (opts.get ⟨i, hi⟩) "taskUUID" = some v →
        ∃ s, v = GoVal.str s ∧ (g'.options.get ⟨i, hi2⟩).taskUUID = s) := by
  obtain ⟨hcl, _, _⟩ := Config_ok hcfg
  obtain ⟨hlen, hctr, hidx⟩ := configList_spec hcl
  have hub : ∀ m, m < opts.length →
      ctr + countAbsent (opts.take m) < 16 ^ 12 := by
    intro m hm
    have h1 : countAbsent (opts.take m) ≤ (opts.take m).length :=
      countAbsent_le_length _
    have h2 : (opts.take m).length ≤ m := by
      simp [List.length_take]
    omega
  refine ⟨hlen, ?_⟩
  intro i hi hi2
  have spec_i := configOne_spec (hidx i hi hi2)
  constructor
  · intro habs
    obtain ⟨huuid, _⟩ := spec_i.2.2.1 habs
    refine ⟨huuid, ?_, ?_, ?_⟩
    · rw [huuid]
      exact isUUIDv4_genUUID _
    · rw [huuid]
      exact genUUID_ne_empty _
    · intro j hj hj2 hne habsj
      obtain ⟨huuidj, _⟩ := (configOne_spec (hidx j hj hj2)).2.2.1 habsj
      rw [huuid, huuidj]
      intro heq
      have hci : ctr + countAbsent (opts.take i) < 16 ^ 12 := hub i hi
      have hcj : ctr + countAbsent (opts.take j) < 16 ^ 12 := hub j hj
      have hcnt := genUUID_inj hcj hci heq
      rcases Nat.lt_or_ge j i with hji | hij
      · have hlt := countAbsent_take_lt hji (Nat.le_of_lt hi) hj habsj
        omega
      · have hij' : i < j := by omega
        have hlt := countAbsent_take_lt hij' (Nat.le_of_lt hj) hi habs
        omega
  · intro v hv
    obtain ⟨s, h1, h2, _⟩ := spec_i.2.2.2.1 v hv
    exact ⟨s, h1, h2⟩

/-- C6 amended witness: two tasks without IDs get the first two draws of
the stream — both valid, non-empty and distinct. -/
theorem c6_amended_witness :
    isUUIDv4 "00000000-0000-4000-8000-000000000000" = true ∧
    ("00000000-0000-4000-8000-000000000000" : String) ≠ "" ∧
    ("00000000-0000-4000-8000-000000000001" : String) ≠
      "00000000-0000-4000-8000-000000000000" := by
  have h := @c6_amended_uuid_assignment (NewGenerateImagesV1 "key")
    [fun _ => none, fun _ => none] 0 2
    ⟨"key", [⟨"", "00000000-0000-4000-8000-000000000000", "", "", "", "",
      "", 0, 0, 0, false, false⟩,
      ⟨"", "00000000-0000-4000-8000-000000000001", "", "", "", "",
      "", 0, 0, 0, false, false⟩],
      ["checkNSFW", "includeCost", "checkNSFW", "includeCost"]⟩
    (by decide) (by norm_num)
  have h0 := (h.2 0 (by decide) (by decide)).1 rfl
  exact ⟨h0.2.1, h0.2.2.1, h0.2.2.2 1 (by decide) (by decide)
    (by decide) rfl⟩

/-- C8: the wire payload is one object per input mapping, in input
order; the local prompt serializes under `positivePrompt` and the local
result count under `numberOfResults`. -/
theorem c8_order_and_wire_renames {gen : Nat → String} {key : String}
    {opts : List OptionMap} {ctr ctr' : Nat} {g' : generateImagesV1Impl}
    {payload : List (List (String × GoVal))}
    (hcfg : Config gen (NewGenerateImagesV1 key) opts ctr = .ok (g', ctr'))
    (hpay : buildClient g' = .ok payload) :
    payload.length = opts.length ∧
    ∀ i (hi : i < opts.length) (hip : i < payload.length),
      (∀ p, (opts.get ⟨i, hi⟩) "prompt" = some (GoVal.str p) → p ≠ "" →
        (payload.get ⟨i, hip⟩).lookup "positivePrompt" =
          some (GoVal.str p)) ∧
      (∀ n, (opts.get ⟨i, hi⟩) "results" = some (GoVal.uint8V n) →
        (payload.get ⟨i, hip⟩).lookup "numberOfResults" =
          some (GoVal.uint8V (n % 256))) := by
  obtain ⟨hcl, _, hom⟩ := Config_ok hcfg
  obtain ⟨hlen, hidx⟩ := buildClient_get hpay
  obtain ⟨hlen2, _, hidx2⟩ := configList_spec hcl
  have hnm : ∀ k : String, k ≠ "checkNSFW" → k ≠ "includeCost" →
      k ∉ g'.omittedFields := by
    intro k h1 h2 hmem
    rw [hom] at hmem
    simp [NewGenerateImagesV1] at hmem
    rcases batchOmissions_flags hmem with h | h
    · exact h1 h
    · exact h2 h
  refine ⟨by omega, ?_⟩
  intro i hi hip
  have hi2 : i < g'.options.length := by omega
  have spec := configOne_spec (hidx2 i hi hi2)
  rw [hidx i hi2 hip]
  constructor
  · intro p hv hp
    obtain ⟨s, hs1, hs2⟩ := spec.2.2.2.2.2.1 (GoVal.str p) hv
    have hsp : s = p := by
      cases hs1
      rfl
    subst hsp
    rw [lookup_skipEmptyOrNil_nodup (taskEntries_keys_nodup _),
      taskEntries_lookup_prompt]
    have hpr : (dimFix (g'.options.get ⟨i, hi2⟩)).prompt = s := by
      simp [dimFix]
      exact hs2
    rw [hpr]
    simp [isEmptyOrNil, hp, hnm "positivePrompt" (by decide) (by decide)]
  · intro n hv
    obtain ⟨m, hm1, hm2⟩ := spec.2.2.2.2.2.2.2.2.2.2.2.2.2.1
      (GoVal.uint8V n) hv
    have hmn : m = n := by
      cases hm1
      rfl
    subst hmn
    rw [lookup_skipEmptyOrNil_nodup (taskEntries_keys_nodup _),
      taskEntries_lookup_results]
    have hnr : (dimFix (g'.options.get ⟨i, hi2⟩)).numberOfResults =
        m % 256 := by
      simp [dimFix]
      exact hm2
    rw [hnr]
    simp [isEmptyOrNil, hnm "numberOfResults" (by decide) (by decide)]

/-- C8 witness: two tasks with distinct prompts and counts serialize in
order with the renamed wire keys. -/
theorem c8_order_and_wire_renames_witness :
    (List.lookup "positivePrompt" [("height", GoVal.definitionV 0),
      ("numberOfResults", GoVal.uint8V 2),
      ("outputFormat", GoVal.outputFormatV ""),
      ("outputType", GoVal.outputTypeV ""),
      ("positivePrompt", GoVal.str "p2"), ("taskType", GoVal.taskTypeV ""),
      ("taskUUID", GoVal.str "b"), ("width", GoVal.definitionV 0)] =
      some (GoVal.str "p2")) ∧
    (List.lookup "numberOfResults" [("height", GoVal.definitionV 0),
      ("numberOfResults", GoVal.uint8V 2),
      ("outputFormat", GoVal.outputFormatV ""),
      ("outputType", GoVal.outputTypeV ""),
      ("positivePrompt", GoVal.str "p2"), ("taskType", GoVal.taskTypeV ""),
      ("taskUUID", GoVal.str "b"), ("width", GoVal.definitionV 0)] =
      some (GoVal.uint8V 2)) := by
  have h := @c8_order_and_wire_renames genUUID "key"
    [fun k => if k = "taskUUID" then some (GoVal.str "a")
      else if k = "prompt" then some (GoVal.str "p1")
      else if k = "results" then some (GoVal.uint8V 1) else none,
     fun k => if k = "taskUUID" then some (GoVal.str "b")
      else if k = "prompt" then some (GoVal.str "p2")
      else if k = "results" then some (GoVal.uint8V 2) else none]
    0 0
    ⟨"key", [⟨"", "a", "p1", "", "", "", "", 0, 0, 1, false, false⟩,
      ⟨"", "b", "p2", "", "", "", "", 0, 0, 2, false, false⟩],
      ["checkNSFW", "includeCost", "checkNSFW", "includeCost"]⟩
    [[("height", GoVal.definitionV 0), ("numberOfResults", GoVal.uint8V 1),
      ("outputFormat", GoVal.outputFormatV ""),
      ("outputType", GoVal.outputTypeV ""),
      ("positivePrompt", GoVal.str "p1"), ("taskType", GoVal.taskTypeV ""),
      ("taskUUID", GoVal.str "a"), ("width", GoVal.definitionV 0)],
     [("height", GoVal.definitionV 0), ("numberOfResults", GoVal.uint8V 2),
      ("outputFormat", GoVal.outputFormatV ""),
      ("outputType", GoVal.outputTypeV ""),
      ("positivePrompt", GoVal.str "p2"), ("taskType", GoVal.taskTypeV ""),
      ("taskUUID", GoVal.str "b"), ("width", GoVal.definitionV 0)]]
    (by decide) (by decide)
  have h1 := (h.2 1 (by decide) (by decide)).1 "p2" (by decide) (by decide)
  have h2 := (h.2 1 (by decide) (by decide)).2 2 (by decide)
  exact ⟨h1, h2⟩

/-- C10: `Config` is not total over loosely-typed inputs — a plain `int`
under `width` panics in the type assertion (concrete failing run), and
every non-panicking run requires each supplied recognized key to carry
exactly its declared dynamic type. -/
theorem c10_config_requires_declared_types {gen : Nat → String}
    {g : generateImagesV1Impl} {opts : List OptionMap} {ctr : Nat}
    {res : generateImagesV1Impl × Nat}
    (hok : Config gen g opts ctr = .ok res) :
    (∀ d ∈ opts, WellTypedMap d) ∧
    Config genUUID (NewGenerateImagesV1 "key")
      [fun k => if k = "width" then some (GoVal.intV 512) else none] 0 =
      .error "panic: interface conversion to Definition" := by
  refine ⟨?_, by decide⟩
  intro d hd
  obtain ⟨i, hi, rfl⟩ := List.mem_iff_get.mp hd
  obtain ⟨g2, c2⟩ := res
  obtain ⟨hcl, _, _⟩ := Config_ok hok
  obtain ⟨hlen, _, hidx⟩ := configList_spec hcl
  have hi2 : (i : Nat) < g2.options.length := by
    omega
  have spec := configOne_spec (hidx i i.isLt hi2)
  refine ⟨?_, ?_, ?_, ?_, ?_, ?_, ?_, ?_, ?_, ?_, ?_, ?_⟩
  · intro v hv
    obtain ⟨s, hs, _⟩ := spec.2.1 v hv
    exact ⟨s, hs⟩
  · intro v hv
    obtain ⟨s, hs, _⟩ := spec.2.2.2.1 v hv
    exact ⟨s, hs⟩
  · intro v hv
    obtain ⟨s, hs, _⟩ := spec.2.2.2.2.2.1 v hv
    exact ⟨s, hs⟩
  · intro v hv
    obtain ⟨n, hn, _⟩ := spec.2.2.2.2.2.2.2.1 v hv
    exact ⟨n, hn⟩
  · intro v hv
    obtain ⟨n, hn, _⟩ := spec.2.2.2.2.2.2.2.2.2.1 v hv
    exact ⟨n, hn⟩
  · intro v hv
    obtain ⟨s, hs, _⟩ := spec.2.2.2.2.2.2.2.2.2.2.2.1 v hv
    exact ⟨s, hs⟩
  · intro v hv
    obtain ⟨n, hn, _⟩ := spec.2.2.2.2.2.2.2.2.2.2.2.2.2.1 v hv
    exact ⟨n, hn⟩
  · intro v hv
    obtain ⟨s, hs, _⟩ := spec.2.2.2.2.2.2.2.2.2.2.2.2.2.2.2.1 v hv
    exact ⟨s, hs⟩
  · intro v hv
    obtain ⟨b, hb, _⟩ := spec.2.2.2.2.2.2.2.2.2.2.2.2.2.2.2.2.2.1 v hv
    exact ⟨b, hb⟩
  · intro v hv
    obtain ⟨b, hb, _⟩ :=
      spec.2.2.2.2.2.2.2.2.2.2.2.2.2.2.2.2.2.2.2.1 v hv
    exact ⟨b, hb⟩
  · intro v hv
    obtain ⟨s, hs, _⟩ :=
      spec.2.2.2.2.2.2.2.2.2.2.2.2.2.2.2.2.2.2.2.2.2.1 v hv
    exact ⟨s, hs⟩
  · intro v hv
    obtain ⟨s, hs, _⟩ :=
      spec.2.2.2.2.2.2.2.2.2.2.2.2.2.2.2.2.2.2.2.2.2.2.2 v hv
    exact ⟨s, hs⟩

/-- C10 witness: a well-typed mapping passes, and the ill-typed `width`
mapping panics. -/
theorem c10_config_requires_declared_types_witness :
    WellTypedMap (fun k => if k = "taskUUID" then some (GoVal.str "t")
      else if k = "prompt" then some (GoVal.str "p") else none) ∧
    Config genUUID (NewGenerateImagesV1 "key")
      [fun k => if k = "width" then some (GoVal.intV 512) else none] 0 =
      .error "panic: interface conversion to Definition" := by
  have h := @c10_config_requires_declared_types genUUID
    (NewGenerateImagesV1 "key")
    [fun k => if k = "taskUUID" then some (GoVal.str "t")
      else if k = "prompt" then some (GoVal.str "p") else none]
    0
    (⟨"key", [⟨"", "t", "p", "", "", "", "", 0, 0, 0, false, false⟩],
      ["checkNSFW", "includeCost"]⟩, 0)
    (by decide)
  exact ⟨h.1 _ (List.mem_singleton.mpr rfl), h.2⟩
